import Mathlib

/-!
Verification of the tmppy compiler core against its specification.

This development shallowly embeds the parts of the code base that the
verified properties are about:

* `_py2tmp/ir0.py` — the template-oriented IR ("IR-low"): `ExprKind`,
  `ExprType`, `Expr`, template argument declarations, template body
  elements and `Header`.
* `_py2tmp/ir0_to_cpp.py` — the C++ emitter.  The Python emitter is a
  set of mutually recursive functions that thread a writer object used
  for fresh-identifier generation and for emitting template-body /
  toplevel elements.  The embedding threads an explicit `EmitState`
  instead and uses a fuel parameter to make the mutual recursion
  obviously total (the Python recursion is not structural because
  `template_instantiation_to_cpp` rewrites arguments into larger,
  freshly-constructed expressions before recursing).
* `_py2tmp/transform_ir0.py` — `Transformation.transform_header`.
* `_py2tmp/ast_to_ir3.py` — the front-end elaboration fragments the
  claims are about (branch joining, literals, asserts, equality
  support, match-lambda parameter checks, list displays).  The `ir3`
  data model itself (`_py2tmp/ir3.py`) is not part of the sources, so
  those types are modelled from the specification (§3.1–§3.2) and are
  marked as such.
-/

namespace Ir0

/-- Embeds `ir0.ExprKind` (ir0.py lines 20-25). -/
inductive ExprKind where
  | bool
  | int64
  | type
  | template
  | variadicType
deriving DecidableEq, Repr

/-- Embeds `ir0.ExprType` and its subclasses `BoolType`, `Int64Type`,
`TypeType`, `TemplateType(argtypes)`, `VariadicType` (ir0.py lines 27-50). -/
inductive ExprType where
  | boolType
  | int64Type
  | typeType
  | templateType (argtypes : List ExprType)
  | variadicType

/-- Embeds the `kind` field set by each `ExprType` subclass constructor. -/
def ExprType.kind : ExprType → ExprKind
  | .boolType => .bool
  | .int64Type => .int64
  | .typeType => .type
  | .templateType _ => .template
  | .variadicType => .variadicType

/-- Embeds the `value: Union[bool, int]` payload of `ir0.Literal`. -/
inductive LiteralValue where
  | bool (b : Bool)
  | int (n : Int)
deriving DecidableEq, Repr

/-- Embeds `ir0.Expr` and its subclasses (ir0.py lines 52-447).
Each constructor corresponds to one concrete `Expr` subclass; the
`type` of a node is recovered by `Expr.type` below, mirroring the
`type` argument each Python constructor passes to `Expr.__init__`. -/
inductive Expr where
  | literal (value : LiteralValue)
  | atomicTypeLiteral (cpp_type : String) (is_local : Bool)
      (is_metafunction_that_may_return_error : Bool) (type : ExprType)
  | pointerTypeExpr (type_expr : Expr)
  | referenceTypeExpr (type_expr : Expr)
  | rvalueReferenceTypeExpr (type_expr : Expr)
  | constTypeExpr (type_expr : Expr)
  | arrayTypeExpr (type_expr : Expr)
  | functionTypeExpr (return_type_expr : Expr) (arg_exprs : List Expr)
  | comparisonExpr (lhs rhs : Expr) (op : String)
  | int64BinaryOpExpr (lhs rhs : Expr) (op : String)
  | templateInstantiation (template_expr : Expr) (args : List Expr)
      (instantiation_might_trigger_static_asserts : Bool)
  | classMemberAccess (class_type_expr : Expr) (member_name : String) (member_type : ExprType)
  | notExpr (expr : Expr)
  | unaryMinusExpr (expr : Expr)
  | variadicTypeExpansion (expr : Expr)

/-- Embeds the `type` each `ir0.Expr` subclass passes to `Expr.__init__`:
literals by payload, type constructors produce `TypeType()`, comparisons and
`NotExpr` produce `BoolType()`, arithmetic produces `Int64Type()`,
`ClassMemberAccess` carries its `member_type`. -/
def Expr.type : Expr → ExprType
  | .literal (.bool _) => .boolType
  | .literal (.int _) => .int64Type
  | .atomicTypeLiteral _ _ _ t => t
  | .pointerTypeExpr _ => .typeType
  | .referenceTypeExpr _ => .typeType
  | .rvalueReferenceTypeExpr _ => .typeType
  | .constTypeExpr _ => .typeType
  | .arrayTypeExpr _ => .typeType
  | .functionTypeExpr _ _ => .typeType
  | .comparisonExpr _ _ _ => .boolType
  | .int64BinaryOpExpr _ _ _ => .int64Type
  | .templateInstantiation _ _ _ => .typeType
  | .classMemberAccess _ _ t => t
  | .notExpr _ => .boolType
  | .unaryMinusExpr _ => .int64Type
  | .variadicTypeExpansion _ => .typeType

mutual

/-- Embeds `references_any_of` as defined on each `ir0.Expr` subclass:
`Literal` returns `False`, `AtomicTypeLiteral` tests membership of its
`cpp_type`, every other node folds the test over its children. -/
def Expr.references_any_of : Expr → List String → Bool
  | .literal _, _ => false
  | .atomicTypeLiteral cpp_type _ _ _, vars => cpp_type ∈ vars
  | .pointerTypeExpr e, vars => e.references_any_of vars
  | .referenceTypeExpr e, vars => e.references_any_of vars
  | .rvalueReferenceTypeExpr e, vars => e.references_any_of vars
  | .constTypeExpr e, vars => e.references_any_of vars
  | .arrayTypeExpr e, vars => e.references_any_of vars
  | .functionTypeExpr ret args, vars =>
      ret.references_any_of vars || references_any_of_list args vars
  | .comparisonExpr lhs rhs _, vars =>
      lhs.references_any_of vars || rhs.references_any_of vars
  | .int64BinaryOpExpr lhs rhs _, vars =>
      lhs.references_any_of vars || rhs.references_any_of vars
  | .templateInstantiation t args _, vars =>
      t.references_any_of vars || references_any_of_list args vars
  | .classMemberAccess e _ _, vars => e.references_any_of vars
  | .notExpr e, vars => e.references_any_of vars
  | .unaryMinusExpr e, vars => e.references_any_of vars
  | .variadicTypeExpansion e, vars => e.references_any_of vars

/-- `any(expr.references_any_of(vars) for expr in exprs)`. -/
def references_any_of_list : List Expr → List String → Bool
  | [], _ => false
  | e :: rest, vars => e.references_any_of vars || references_any_of_list rest vars

end

/-- Embeds `ir0.TemplateArgDecl` (ir0.py lines 95-98). -/
structure TemplateArgDecl where
  type : ExprType
  name : String

/-- Embeds `ir0.StaticAssert` (ir0.py lines 65-73); the constructor also
asserts `isinstance(expr.type, BoolType)`, which is not needed for the
verified properties and is left implicit. -/
structure StaticAssert where
  expr : Expr
  message : String

/-- Embeds `ir0.ConstantDef` (ir0.py lines 75-83). -/
structure ConstantDef where
  name : String
  expr : Expr

/-- Embeds `ir0.Typedef` (ir0.py lines 85-93). -/
structure Typedef where
  name : String
  expr : Expr

mutual

/-- Embeds `ir0.TemplateSpecialization` (ir0.py lines 102-119). -/
inductive TemplateSpecialization where
  | mk (args : List TemplateArgDecl) (patterns : Option (List Expr))
       (body : List TemplateBodyElement)

/-- Embeds `ir0.TemplateDefn` (ir0.py lines 121-145). -/
inductive TemplateDefn where
  | mk (args : List TemplateArgDecl) (main_definition : Option TemplateSpecialization)
       (specializations : List TemplateSpecialization) (name : String)
       (description : String) (result_element_names : List String)

/-- Embeds `ir0.TemplateBodyElement`: one of `StaticAssert`, `ConstantDef`,
`Typedef`, `TemplateDefn`. -/
inductive TemplateBodyElement where
  | staticAssert (sa : StaticAssert)
  | constantDef (cd : ConstantDef)
  | typedef (td : Typedef)
  | templateDefn (defn : TemplateDefn)

end

/-- Embeds the `Union[StaticAssert, ConstantDef, Typedef]` element type of
`ir0.Header.toplevel_content`. -/
inductive ToplevelElem where
  | staticAssert (sa : StaticAssert)
  | constantDef (cd : ConstantDef)
  | typedef (td : Typedef)

/-- Embeds `ir0.Header` (ir0.py lines 449-456); `public_names` is a
`Set[str]` in Python, modelled as a list of names. -/
structure Header where
  template_defns : List TemplateDefn
  toplevel_content : List ToplevelElem
  public_names : List String

end Ir0

namespace Ir0ToCpp

open Ir0

/-- The writer state threaded through the emitter.  It combines the three
concerns of the Python `Writer` hierarchy (ir0_to_cpp.py lines 18-96):
`gen`/`counter` model the injected `identifier_generator` consumed by
`new_id`, `body_elems` collects `write_template_body_elem` output and
`toplevel_elems` collects `write_toplevel_elem` output. -/
structure EmitState where
  gen : Nat → String
  counter : Nat
  body_elems : List String
  toplevel_elems : List String

/-- Embeds `Writer.new_id`, i.e. `next(self.identifier_generator)`. -/
def EmitState.new_id (st : EmitState) : String × EmitState :=
  (st.gen st.counter, { st with counter := st.counter + 1 })

/-- Embeds `write_template_body_elem` on a `TemplateElemWriter`. -/
def EmitState.write_template_body_elem (st : EmitState) (s : String) : EmitState :=
  { st with body_elems := st.body_elems ++ [s] }

/-- Embeds `write_toplevel_elem`. -/
def EmitState.write_toplevel_elem (st : EmitState) (s : String) : EmitState :=
  { st with toplevel_elems := st.toplevel_elems ++ [s] }

/-- Embeds `literal_to_cpp` (ir0_to_cpp.py lines 311-320). -/
def literal_to_cpp : LiteralValue → String
  | .bool true => "true"
  | .bool false => "false"
  | .int n => toString n ++ "LL"

/-- Embeds `atomic_type_literal_expr_to_cpp` (lines 633-634). -/
def atomic_type_literal_expr_to_cpp (cpp_type : String) : String :=
  cpp_type

mutual

/-- Embeds `_type_to_template_param_declaration` (lines 213-230). -/
def type_to_template_param_declaration : ExprType → String
  | .boolType => "bool"
  | .int64Type => "int64_t"
  | .typeType => "typename"
  | .templateType argtypes =>
      "template <" ++ String.intercalate ", " (type_list_to_template_param_declarations argtypes)
        ++ "> class"
  | .variadicType => "typename..."

/-- The generator expression inside the `TemplateType` case of
`_type_to_template_param_declaration`. -/
def type_list_to_template_param_declarations : List ExprType → List String
  | [] => []
  | t :: rest => type_to_template_param_declaration t :: type_list_to_template_param_declarations rest

end

/-- Embeds `template_arg_decl_to_cpp` (lines 232-233). -/
def template_arg_decl_to_cpp (arg_decl : TemplateArgDecl) : String :=
  type_to_template_param_declaration arg_decl.type ++ " " ++ arg_decl.name

/-- The `while` loop of `_simplify_toplevel_references` (lines 542-550):
`has_reference` accumulates whether any link of the chain is an lvalue
reference; once a non-reference node is reached the loop exits and the
function wraps it in a single `ReferenceTypeExpr` or
`RvalueReferenceTypeExpr`. -/
def simplify_toplevel_references_loop : Bool → Expr → Expr
  | _, .referenceTypeExpr t => simplify_toplevel_references_loop true t
  | has_reference, .rvalueReferenceTypeExpr t => simplify_toplevel_references_loop has_reference t
  | has_reference, e => if has_reference then .referenceTypeExpr e else .rvalueReferenceTypeExpr e

/-- Embeds `_simplify_toplevel_references` (lines 542-550). -/
def simplify_toplevel_references (e : Expr) : Expr :=
  simplify_toplevel_references_loop false e

/-- The loop of `_select_best_arg_decl_for_select1st` (lines 338-342):
first argument declaration whose type is not a `TemplateType`. -/
def select_best_arg_decl_loop : List TemplateArgDecl → Option TemplateArgDecl
  | [] => none
  | arg :: rest =>
      match arg.type with
      | .templateType _ => select_best_arg_decl_loop rest
      | _ => some arg

/-- Embeds `_select_best_arg_decl_for_select1st` (lines 338-342); on an
empty list the Python `args[0]` fallback would raise, modelled as `none`. -/
def select_best_arg_decl_for_select1st (args : List TemplateArgDecl) : Option TemplateArgDecl :=
  match select_best_arg_decl_loop args with
  | some arg => some arg
  | none => args.head?

/-- The `enumerate` loop of `_select_best_arg_expr_index_for_select1st`
(lines 344-349). -/
def select_best_arg_expr_index_loop : Nat → List Expr → Option Nat
  | _, [] => none
  | i, arg :: rest =>
      match arg.type with
      | .templateType _ => select_best_arg_expr_index_loop (i + 1) rest
      | _ => some i

/-- Embeds `_select_best_arg_expr_index_for_select1st` (lines 344-349);
the Python function asserts `args` is non-empty, modelled as `none`. -/
def select_best_arg_expr_index_for_select1st (args : List Expr) : Option Nat :=
  match args with
  | [] => none
  | _ =>
      match select_best_arg_expr_index_loop 0 args with
      | some i => some i
      | none => some 0

/-- Embeds the `select1st_variant` dictionary of
`template_instantiation_to_cpp` (ir0_to_cpp.py lines 378-391), keyed by
`(arg_to_replace.type.kind, arg_decl.type.kind)`; keys absent from the
dictionary would raise `KeyError` in Python, modelled as `none`. -/
def select1st_variant : ExprKind → ExprKind → Option String
  | .bool, .bool => some "Select1stBoolBool"
  | .bool, .int64 => some "Select1stBoolInt64"
  | .bool, .type => some "Select1stBoolType"
  | .bool, .variadicType => some "Select1stBoolType"
  | .int64, .bool => some "Select1stInt64Bool"
  | .int64, .int64 => some "Select1stInt64Int64"
  | .int64, .type => some "Select1stInt64Type"
  | .int64, .variadicType => some "Select1stInt64TypeType"
  | .type, .bool => some "Select1stTypeBool"
  | .type, .int64 => some "Select1stTypeInt64"
  | .type, .type => some "Select1stTypeType"
  | .type, .variadicType => some "Select1stTypeType"
  | _, _ => none

/-- The `for arg_decl in enclosing_function_defn_args` loop of
`static_assert_to_cpp` (lines 135-147): the emitted guarded element for the
first parameter of kind `BOOL`, `INT64` or `TYPE`, if any. -/
def static_assert_param_loop (cpp_meta_expr message : String) :
    List TemplateArgDecl → Option String
  | [] => none
  | arg_decl :: rest =>
      match arg_decl.type.kind with
      | .bool => some ("static_assert(AlwaysTrueFromBool<" ++ arg_decl.name ++ ">::value && "
          ++ cpp_meta_expr ++ ", \"" ++ message ++ "\");")
      | .int64 => some ("static_assert(AlwaysTrueFromInt64<" ++ arg_decl.name ++ ">::value && "
          ++ cpp_meta_expr ++ ", \"" ++ message ++ "\");")
      | .type => some ("static_assert(AlwaysTrueFromType<" ++ arg_decl.name ++ ">::value && "
          ++ cpp_meta_expr ++ ", \"" ++ message ++ "\");")
      | _ => static_assert_param_loop cpp_meta_expr message rest

/-- The template-body element written by the final branch of
`static_assert_to_cpp` (lines 149-161): a freshly defined always-true
template plus the guarded `static_assert`, with the source's literal
indentation. -/
def custom_always_true_elem (template_param_decl always_true_id template_param cpp_meta_expr message : String) : String :=
  "            // Custom AlwaysTrueFor* template\n            template <"
    ++ template_param_decl ++ ">\n            struct " ++ always_true_id
    ++ " \x7b\n              static constexpr bool value = true;\n            \x7d;\n            static_assert("
    ++ always_true_id ++ "<" ++ template_param ++ ">::value && " ++ cpp_meta_expr
    ++ ", \"" ++ message ++ "\");\n            "

/-- The template-body element written by the custom-`Select1st` branch of
`template_instantiation_to_cpp` (lines 417-423), with the source's literal
leading newline and indentation. -/
def custom_select1st_elem (template_param_decl1 forwarded_param_id template_param_decl2 select1st_variant_id select1st_variant_body_str : String) : String :=
  "\n                    // Custom Select1st* template\n                    template <"
    ++ template_param_decl1 ++ " " ++ forwarded_param_id ++ ", " ++ template_param_decl2
    ++ ">\n                    struct " ++ select1st_variant_id
    ++ " \x7b\n                      " ++ select1st_variant_body_str
    ++ "\n                    \x7d;\n                    "

/-- Embeds the list comprehension building `template_args` in the
`TEMPLATE` branch of `typedef_to_cpp` (lines 191-192): one fresh
identifier per argument type, drawn in order. -/
def fresh_template_arg_decls : List ExprType → EmitState → (List TemplateArgDecl × EmitState)
  | [], st => ([], st)
  | t :: rest, st =>
      let (id, st) := st.new_id
      let (more, st) := fresh_template_arg_decls rest st
      (⟨t, id⟩ :: more, st)

mutual

/-- Embeds `expr_to_cpp` (ir0_to_cpp.py lines 98-114): dispatch on the
expression class; every non-scalar expression goes through the
type-expression pretty-printer.  All emitter functions take a fuel
parameter because the Python recursion is not structural (see the file
header); `none` means the fuel ran out or a Python-side exception
(`KeyError`, `NotImplementedError`, `assert`, `IndexError`). -/
def expr_to_cpp : Nat → Expr → List TemplateArgDecl → EmitState → Option (String × EmitState)
  | 0, _, _, _ => none
  | fuel + 1, e, enclosing_function_defn_args, st =>
      match e with
      | .literal v => some (literal_to_cpp v, st)
      | .comparisonExpr lhs rhs op => comparison_expr_to_cpp fuel lhs rhs op enclosing_function_defn_args st
      | .notExpr inner => not_expr_to_cpp fuel inner enclosing_function_defn_args st
      | .unaryMinusExpr inner => unary_minus_expr_to_cpp fuel inner enclosing_function_defn_args st
      | .int64BinaryOpExpr lhs rhs op => int64_binary_op_expr_to_cpp fuel lhs rhs op enclosing_function_defn_args st
      | e => type_expr_to_cpp fuel e enclosing_function_defn_args st

/-- Embeds `comparison_expr_to_cpp` (lines 322-328). -/
def comparison_expr_to_cpp : Nat → Expr → Expr → String → List TemplateArgDecl → EmitState → Option (String × EmitState)
  | 0, _, _, _, _, _ => none
  | fuel + 1, lhs, rhs, op, enclosing_function_defn_args, st => do
      let (lhs_cpp, st) ← expr_to_cpp fuel lhs enclosing_function_defn_args st
      let (rhs_cpp, st) ← expr_to_cpp fuel rhs enclosing_function_defn_args st
      some ("(" ++ lhs_cpp ++ ") " ++ op ++ " (" ++ rhs_cpp ++ ")", st)

/-- Embeds `int64_binary_op_expr_to_cpp` (lines 330-336). -/
def int64_binary_op_expr_to_cpp : Nat → Expr → Expr → String → List TemplateArgDecl → EmitState → Option (String × EmitState)
  | 0, _, _, _, _, _ => none
  | fuel + 1, lhs, rhs, op, enclosing_function_defn_args, st => do
      let (lhs_cpp, st) ← expr_to_cpp fuel lhs enclosing_function_defn_args st
      let (rhs_cpp, st) ← expr_to_cpp fuel rhs enclosing_function_defn_args st
      some ("(" ++ lhs_cpp ++ ") " ++ op ++ " (" ++ rhs_cpp ++ ")", st)

/-- Embeds `not_expr_to_cpp` (lines 486-490). -/
def not_expr_to_cpp : Nat → Expr → List TemplateArgDecl → EmitState → Option (String × EmitState)
  | 0, _, _, _ => none
  | fuel + 1, inner, enclosing_function_defn_args, st => do
      let (inner_expr, st) ← expr_to_cpp fuel inner enclosing_function_defn_args st
      some ("!(" ++ inner_expr ++ ")", st)

/-- Embeds `unary_minus_expr_to_cpp` (lines 492-496). -/
def unary_minus_expr_to_cpp : Nat → Expr → List TemplateArgDecl → EmitState → Option (String × EmitState)
  | 0, _, _, _ => none
  | fuel + 1, inner, enclosing_function_defn_args, st => do
      let (inner_expr, st) ← expr_to_cpp fuel inner enclosing_function_defn_args st
      some ("-(" ++ inner_expr ++ ")", st)

/-- Embeds `variadic_type_expansion_to_cpp` (lines 481-484). -/
def variadic_type_expansion_to_cpp : Nat → Expr → List TemplateArgDecl → EmitState → Option (String × EmitState)
  | 0, _, _, _ => none
  | fuel + 1, inner, enclosing_function_defn_args, st => do
      let (inner_cpp, st) ← expr_to_cpp fuel inner enclosing_function_defn_args st
      some (inner_cpp ++ "...", st)

/-- Embeds `static_assert_to_cpp` (ir0_to_cpp.py lines 116-161).  The
result is the updated state: the function communicates by writing exactly
one template-body element. -/
def static_assert_to_cpp : Nat → StaticAssert → List TemplateArgDecl → EmitState → Option EmitState
  | 0, _, _, _ => none
  | fuel + 1, assert_stmt, enclosing_function_defn_args, st => do
      let bound_variables := enclosing_function_defn_args.map (fun arg_decl => arg_decl.name)
      let (cpp_meta_expr, st) ← expr_to_cpp fuel assert_stmt.expr enclosing_function_defn_args st
      let message := assert_stmt.message
      if enclosing_function_defn_args.isEmpty
          || assert_stmt.expr.references_any_of bound_variables then
        some (st.write_template_body_elem
          ("static_assert(" ++ cpp_meta_expr ++ ", \"" ++ message ++ "\");"))
      else
        match static_assert_param_loop cpp_meta_expr message enclosing_function_defn_args with
        | some elem => some (st.write_template_body_elem elem)
        | none =>
            match enclosing_function_defn_args with
            | [] => none
            | first_arg :: _ =>
                let (always_true_id, st) := st.new_id
                let template_param_decl := type_to_template_param_declaration first_arg.type
                let template_param := first_arg.name
                some (st.write_template_body_elem
                  (custom_always_true_elem template_param_decl always_true_id template_param
                    cpp_meta_expr message))

/-- Embeds `constant_def_to_cpp` (lines 163-177). -/
def constant_def_to_cpp : Nat → ConstantDef → List TemplateArgDecl → EmitState → Option EmitState
  | 0, _, _, _ => none
  | fuel + 1, constant_def, enclosing_function_defn_args, st => do
      let type_cpp ← match constant_def.expr.type with
        | .boolType => some "bool"
        | .int64Type => some "int64_t"
        | _ => none
      let (cpp_meta_expr, st) ← expr_to_cpp fuel constant_def.expr enclosing_function_defn_args st
      some (st.write_template_body_elem
        ("        static constexpr " ++ type_cpp ++ " " ++ constant_def.name ++ " = "
          ++ cpp_meta_expr ++ ";\n        "))

/-- Embeds `typedef_to_cpp` (lines 179-211). -/
def typedef_to_cpp : Nat → Typedef → List TemplateArgDecl → EmitState → Option EmitState
  | 0, _, _, _ => none
  | fuel + 1, typedef, enclosing_function_defn_args, st =>
      match typedef.expr.type with
      | .typeType => do
          let (cpp_meta_expr, st) ← expr_to_cpp fuel typedef.expr enclosing_function_defn_args st
          some (st.write_template_body_elem
            ("            using " ++ typedef.name ++ " = " ++ cpp_meta_expr ++ ";\n            "))
      | .templateType argtypes => do
          let (template_args, st) := fresh_template_arg_decls argtypes st
          let template_args_decl := String.intercalate ", " (template_args.map template_arg_decl_to_cpp)
          let instantiation_args := template_args.map (fun arg =>
            Expr.atomicTypeLiteral arg.name true (arg.type.kind == ExprKind.template) arg.type)
          let (cpp_meta_expr, st) ← template_instantiation_to_cpp fuel typedef.expr
            instantiation_args true enclosing_function_defn_args false st
          some (st.write_template_body_elem
            ("            template <" ++ template_args_decl ++ ">\n            using "
              ++ typedef.name ++ " = " ++ cpp_meta_expr ++ ";\n            "))
      | _ => none

/-- Embeds `template_instantiation_to_cpp` (ir0_to_cpp.py lines 351-450).
The `TemplateInstantiation` fields are passed positionally:
`template_expr`, `args` and the `instantiation_might_trigger_static_asserts`
flag; `omit_typename` mirrors the Python keyword argument. -/
def template_instantiation_to_cpp : Nat → Expr → List Expr → Bool → List TemplateArgDecl → Bool → EmitState → Option (String × EmitState)
  | 0, _, _, _, _, _, _ => none
  | fuel + 1, template_expr, args0, instantiation_might_trigger_static_asserts,
      enclosing_function_defn_args, omit_typename, st => do
      let bound_variables := enclosing_function_defn_args.map (fun arg_decl => arg_decl.name)
      let (args, st) ←
        if instantiation_might_trigger_static_asserts
            && !enclosing_function_defn_args.isEmpty
            && !(args0.any (fun arg => arg.references_any_of bound_variables)) then do
          let arg_decl ← select_best_arg_decl_for_select1st enclosing_function_defn_args
          let arg_index ← select_best_arg_expr_index_for_select1st args0
          let arg_to_replace ← args0.get? arg_index
          let (variant, st) ←
            if arg_decl.type.kind ≠ ExprKind.template
                && arg_to_replace.type.kind ≠ ExprKind.template then do
              let variant ← select1st_variant arg_to_replace.type.kind arg_decl.type.kind
              some (variant, st)
            else do
              let (variant_id, st) := st.new_id
              let (forwarded_param_id, st) := st.new_id
              let template_param_decl1 := type_to_template_param_declaration arg_to_replace.type
              let template_param_decl2 := type_to_template_param_declaration arg_decl.type
              let child_st : EmitState := { st with body_elems := [] }
              let child_st ←
                if arg_to_replace.type.kind == ExprKind.bool
                    || arg_to_replace.type.kind == ExprKind.int64 then
                  constant_def_to_cpp fuel
                    ⟨"value", Expr.atomicTypeLiteral forwarded_param_id true
                      (arg_to_replace.type.kind == ExprKind.template) arg_to_replace.type⟩
                    enclosing_function_defn_args child_st
                else do
                  let replaced_type :=
                    if arg_to_replace.type.kind == ExprKind.variadicType then ExprType.typeType
                    else arg_to_replace.type
                  if replaced_type.kind == ExprKind.type
                      || replaced_type.kind == ExprKind.template then
                    typedef_to_cpp fuel
                      ⟨"value", Expr.atomicTypeLiteral forwarded_param_id true
                        (replaced_type.kind == ExprKind.template) replaced_type⟩
                      enclosing_function_defn_args child_st
                  else none
              let select1st_variant_body_str := String.join child_st.body_elems
              let st : EmitState := { child_st with body_elems := st.body_elems }
              let st := st.write_template_body_elem
                (custom_select1st_elem template_param_decl1 forwarded_param_id
                  template_param_decl2 variant_id select1st_variant_body_str)
              some (variant_id, st)
          let select1st_type := ExprType.templateType [arg_to_replace.type, arg_decl.type]
          let select1st_instantiation := Expr.templateInstantiation
            (Expr.atomicTypeLiteral variant true (select1st_type.kind == ExprKind.template) select1st_type)
            [arg_to_replace,
             Expr.atomicTypeLiteral arg_decl.name true (arg_decl.type.kind == ExprKind.template) arg_decl.type]
            false
          let new_arg := Expr.classMemberAccess select1st_instantiation "value" arg_to_replace.type
          some (args0.take arg_index ++ [new_arg] ++ args0.drop (arg_index + 1), st)
        else
          some (args0, st)
      let (arg_cpp_list, st) ← exprs_to_cpp fuel args enclosing_function_defn_args st
      let template_params := String.intercalate ", " arg_cpp_list
      let (cpp_fun, st) ←
        match template_expr with
        | .classMemberAccess class_type_expr member_name member_type =>
            class_member_access_to_cpp fuel class_type_expr member_name member_type
              enclosing_function_defn_args omit_typename true st
        | e => expr_to_cpp fuel e enclosing_function_defn_args st
      some (cpp_fun ++ "<" ++ template_params ++ ">", st)

/-- Embeds the generator expression joining `expr_to_cpp` over a list of
arguments (lines 438-439). -/
def exprs_to_cpp : Nat → List Expr → List TemplateArgDecl → EmitState → Option (List String × EmitState)
  | 0, _, _, _ => none
  | _ + 1, [], _, st => some ([], st)
  | fuel + 1, e :: rest, enclosing_function_defn_args, st => do
      let (s, st) ← expr_to_cpp fuel e enclosing_function_defn_args st
      let (more, st) ← exprs_to_cpp fuel rest enclosing_function_defn_args st
      some (s :: more, st)

/-- Embeds `class_member_access_to_cpp` (ir0_to_cpp.py lines 452-479); the
`ClassMemberAccess` fields are passed positionally: the inner expression,
`member_name` and the member `type`. -/
def class_member_access_to_cpp : Nat → Expr → String → ExprType → List TemplateArgDecl → Bool → Bool → EmitState → Option (String × EmitState)
  | 0, _, _, _, _, _, _, _ => none
  | fuel + 1, inner, member_name, member_type, enclosing_function_defn_args,
      omit_typename, parent_expr_is_template_instantiation, st => do
      let (cpp_fun, st) ←
        match inner with
        | .templateInstantiation template_expr args might_trigger =>
            template_instantiation_to_cpp fuel template_expr args might_trigger
              enclosing_function_defn_args true st
        | .classMemberAccess class_type_expr name ty =>
            class_member_access_to_cpp fuel class_type_expr name ty
              enclosing_function_defn_args true false st
        | e => expr_to_cpp fuel e enclosing_function_defn_args st
      match member_type with
      | .boolType => some (cpp_fun ++ "::" ++ member_name, st)
      | .int64Type => some (cpp_fun ++ "::" ++ member_name, st)
      | .typeType =>
          let maybe_typename := if omit_typename then "" else "typename "
          some (maybe_typename ++ cpp_fun ++ "::" ++ member_name, st)
      | .templateType _ =>
          let maybe_typename :=
            if omit_typename || !parent_expr_is_template_instantiation then "" else "typename "
          some (maybe_typename ++ cpp_fun ++ "::" ++ "template " ++ member_name, st)
      | _ => none

/-- Embeds `type_expr_to_cpp` (lines 533-538): prefix then suffix, with the
`ExprWriter` fragment list modelled as string concatenation. -/
def type_expr_to_cpp : Nat → Expr → List TemplateArgDecl → EmitState → Option (String × EmitState)
  | 0, _, _, _ => none
  | fuel + 1, e, enclosing_function_defn_args, st => do
      let (pre, suf, st) ← type_expr_to_cpp_pre_suf fuel e enclosing_function_defn_args false st
      some (pre ++ suf, st)

/-- Embeds `type_expr_to_cpp_prefix_suffix` (ir0_to_cpp.py lines 552-587):
reference chains are collapsed by `_simplify_toplevel_references` before
dispatch; the returned pair is the prefix and suffix of the C++ declarator. -/
def type_expr_to_cpp_pre_suf : Nat → Expr → List TemplateArgDecl → Bool → EmitState → Option (String × String × EmitState)
  | 0, _, _, _, _ => none
  | fuel + 1, e0, enclosing_function_defn_args, has_modifiers, st => do
      let e := match e0 with
        | .referenceTypeExpr _ => simplify_toplevel_references e0
        | .rvalueReferenceTypeExpr _ => simplify_toplevel_references e0
        | e => e
      match e with
      | .functionTypeExpr return_type_expr arg_exprs =>
          function_type_expr_to_cpp_pre_suf fuel return_type_expr arg_exprs
            enclosing_function_defn_args has_modifiers st
      | .pointerTypeExpr type_expr =>
          unary_modifier_type_expr_to_cpp_pre_suf fuel "*" type_expr enclosing_function_defn_args st
      | .referenceTypeExpr type_expr =>
          unary_modifier_type_expr_to_cpp_pre_suf fuel " &" type_expr enclosing_function_defn_args st
      | .rvalueReferenceTypeExpr type_expr =>
          unary_modifier_type_expr_to_cpp_pre_suf fuel " &&" type_expr enclosing_function_defn_args st
      | .constTypeExpr type_expr =>
          unary_modifier_type_expr_to_cpp_pre_suf fuel " const " type_expr enclosing_function_defn_args st
      | .arrayTypeExpr type_expr =>
          unary_modifier_type_expr_to_cpp_pre_suf fuel "[]" type_expr enclosing_function_defn_args st
      | .atomicTypeLiteral cpp_type _ _ _ =>
          some (atomic_type_literal_expr_to_cpp cpp_type, "", st)
      | .templateInstantiation template_expr args might_trigger => do
          let (s, st) ← template_instantiation_to_cpp fuel template_expr args might_trigger
            enclosing_function_defn_args false st
          some (s, "", st)
      | .classMemberAccess class_type_expr member_name member_type => do
          let (s, st) ← class_member_access_to_cpp fuel class_type_expr member_name member_type
            enclosing_function_defn_args false false st
          some (s, "", st)
      | .variadicTypeExpansion inner => do
          let (s, st) ← variadic_type_expansion_to_cpp fuel inner enclosing_function_defn_args st
          some (s, "", st)
      | _ => none

/-- Embeds `function_type_expr_to_cpp_prefix_suffix` (lines 589-621). -/
def function_type_expr_to_cpp_pre_suf : Nat → Expr → List Expr → List TemplateArgDecl → Bool → EmitState → Option (String × String × EmitState)
  | 0, _, _, _, _, _ => none
  | fuel + 1, return_type_expr, arg_exprs, enclosing_function_defn_args, has_modifiers, st => do
      let (return_pre, return_suf, st) ← type_expr_to_cpp_pre_suf fuel return_type_expr
        enclosing_function_defn_args false st
      let (arg_strs, st) ← type_exprs_to_cpp fuel arg_exprs enclosing_function_defn_args st
      let pre := return_pre ++ (if has_modifiers then "(" else "")
      let suf := (if has_modifiers then ")" else "") ++ " ("
        ++ String.intercalate ", " arg_strs ++ ")" ++ return_suf
      some (pre, suf, st)

/-- Embeds the loop in `function_type_expr_to_cpp_prefix_suffix.write_suffix`
emitting each argument via `type_expr_to_cpp` (lines 614-617). -/
def type_exprs_to_cpp : Nat → List Expr → List TemplateArgDecl → EmitState → Option (List String × EmitState)
  | 0, _, _, _ => none
  | _ + 1, [], _, st => some ([], st)
  | fuel + 1, e :: rest, enclosing_function_defn_args, st => do
      let (s, st) ← type_expr_to_cpp fuel e enclosing_function_defn_args st
      let (more, st) ← type_exprs_to_cpp fuel rest enclosing_function_defn_args st
      some (s :: more, st)

/-- Embeds `unary_modifier_type_expr_to_cpp_prefix_suffix` (lines 623-631). -/
def unary_modifier_type_expr_to_cpp_pre_suf : Nat → String → Expr → List TemplateArgDecl → EmitState → Option (String × String × EmitState)
  | 0, _, _, _, _ => none
  | fuel + 1, modifier_str, sub_expr, enclosing_function_defn_args, st => do
      let (sub_pre, sub_suf, st) ← type_expr_to_cpp_pre_suf fuel sub_expr
        enclosing_function_defn_args true st
      some (sub_pre ++ modifier_str, sub_suf, st)

end

end Ir0ToCpp

namespace TransformIr0

open Ir0

/-- The writer state of `transform_ir0.ToplevelWriter` (transform_ir0.py
lines 39-59): the lists of collected template definitions and toplevel
elements plus the position of the identifier generator. -/
structure TransformState where
  template_defns : List TemplateDefn
  toplevel_elems : List ToplevelElem
  counter : Nat

/-- Embeds `transform_ir0.Transformation` as far as `transform_header` is
concerned.  `transform_header` (lines 79-89) only ever invokes
`self.transform_template_defn` and `self.transform_toplevel_elem`, both of
which subclasses may override arbitrarily; they are therefore modelled as
arbitrary functions from an element and a writer state to an updated
writer state. -/
structure Transformation where
  transform_template_defn : TemplateDefn → TransformState → TransformState
  transform_toplevel_elem : ToplevelElem → TransformState → TransformState

/-- Embeds `Transformation.transform_header` (transform_ir0.py lines
79-89): create a fresh `ToplevelWriter`, transform every template
definition and every toplevel element into it, and return a `Header`
built from the writer's collected output and the *input* header's
`public_names`. -/
def Transformation.transform_header (self : Transformation) (header : Header) : Header :=
  let writer : TransformState := ⟨[], [], 0⟩
  let writer := header.template_defns.foldl
    (fun writer template_defn => self.transform_template_defn template_defn writer) writer
  let writer := header.toplevel_content.foldl
    (fun writer elem => self.transform_toplevel_elem elem writer) writer
  ⟨writer.template_defns, writer.toplevel_elems, header.public_names⟩

end TransformIr0

namespace Ir3

/-- Modelled from the spec: `_py2tmp/ir3.py` is not among the sources, so
the IR-high type model follows §3.1 of the specification ("A sum type
`HType` with variants: `Bool`, `Int`, `TypeRef`, `Bottom`, `List(HType)`,
`Set(HType)`, `Function(args, ret)`, `Custom(name, fields, is_exception,
message)`. Equality is structural.") with the constructor names used by
`ast_to_ir3.py` (`BoolType`, `IntType`, `TypeType`, `BottomType`,
`ListType`, `SetType`, `FunctionType`, `CustomType`).  A custom type's
`arg_types` are its `(name, type)` fields; the exception message template
is irrelevant to the verified claims and omitted. -/
inductive ExprType where
  | boolType
  | intType
  | typeType
  | bottomType
  | listType (elem_type : ExprType)
  | setType (elem_type : ExprType)
  | functionType (argtypes : List ExprType) (returns : ExprType)
  | customType (name : String) (arg_types : List (String × ExprType)) (is_exception_class : Bool)

mutual

/-- Structural decidable equality for `ExprType`; `deriving DecidableEq`
does not handle this nested inductive. -/
def ExprType.decEq : (a b : ExprType) → Decidable (a = b)
  | .boolType, .boolType => isTrue rfl
  | .intType, .intType => isTrue rfl
  | .typeType, .typeType => isTrue rfl
  | .bottomType, .bottomType => isTrue rfl
  | .listType a, .listType b =>
      match ExprType.decEq a b with
      | isTrue h => isTrue (by rw [h])
      | isFalse h => isFalse (by intro hh; injection hh; contradiction)
  | .setType a, .setType b =>
      match ExprType.decEq a b with
      | isTrue h => isTrue (by rw [h])
      | isFalse h => isFalse (by intro hh; injection hh; contradiction)
  | .functionType as₁ r₁, .functionType as₂ r₂ =>
      match ExprType.decEqList as₁ as₂, ExprType.decEq r₁ r₂ with
      | isTrue h₁, isTrue h₂ => isTrue (by rw [h₁, h₂])
      | isFalse h₁, _ => isFalse (by intro hh; injection hh; contradiction)
      | _, isFalse h₂ => isFalse (by intro hh; injection hh; contradiction)
  | .customType n₁ f₁ e₁, .customType n₂ f₂ e₂ =>
      match String.decEq n₁ n₂, ExprType.decEqFields f₁ f₂, instDecidableEqBool e₁ e₂ with
      | isTrue h₁, isTrue h₂, isTrue h₃ => isTrue (by rw [h₁, h₂, h₃])
      | isFalse h₁, _, _ => isFalse (by intro hh; injection hh; contradiction)
      | _, isFalse h₂, _ => isFalse (by intro hh; injection hh; contradiction)
      | _, _, isFalse h₃ => isFalse (by intro hh; injection hh; contradiction)
  | .boolType, .intType => isFalse (fun h => ExprType.noConfusion h)
  | .boolType, .typeType => isFalse (fun h => ExprType.noConfusion h)
  | .boolType, .bottomType => isFalse (fun h => ExprType.noConfusion h)
  | .boolType, .listType _ => isFalse (fun h => ExprType.noConfusion h)
  | .boolType, .setType _ => isFalse (fun h => ExprType.noConfusion h)
  | .boolType, .functionType _ _ => isFalse (fun h => ExprType.noConfusion h)
  | .boolType, .customType _ _ _ => isFalse (fun h => ExprType.noConfusion h)
  | .intType, .boolType => isFalse (fun h => ExprType.noConfusion h)
  | .intType, .typeType => isFalse (fun h => ExprType.noConfusion h)
  | .intType, .bottomType => isFalse (fun h => ExprType.noConfusion h)
  | .intType, .listType _ => isFalse (fun h => ExprType.noConfusion h)
  | .intType, .setType _ => isFalse (fun h => ExprType.noConfusion h)
  | .intType, .functionType _ _ => isFalse (fun h => ExprType.noConfusion h)
  | .intType, .customType _ _ _ => isFalse (fun h => ExprType.noConfusion h)
  | .typeType, .boolType => isFalse (fun h => ExprType.noConfusion h)
  | .typeType, .intType => isFalse (fun h => ExprType.noConfusion h)
  | .typeType, .bottomType => isFalse (fun h => ExprType.noConfusion h)
  | .typeType, .listType _ => isFalse (fun h => ExprType.noConfusion h)
  | .typeType, .setType _ => isFalse (fun h => ExprType.noConfusion h)
  | .typeType, .functionType _ _ => isFalse (fun h => ExprType.noConfusion h)
  | .typeType, .customType _ _ _ => isFalse (fun h => ExprType.noConfusion h)
  | .bottomType, .boolType => isFalse (fun h => ExprType.noConfusion h)
  | .bottomType, .intType => isFalse (fun h => ExprType.noConfusion h)
  | .bottomType, .typeType => isFalse (fun h => ExprType.noConfusion h)
  | .bottomType, .listType _ => isFalse (fun h => ExprType.noConfusion h)
  | .bottomType, .setType _ => isFalse (fun h => ExprType.noConfusion h)
  | .bottomType, .functionType _ _ => isFalse (fun h => ExprType.noConfusion h)
  | .bottomType, .customType _ _ _ => isFalse (fun h => ExprType.noConfusion h)
  | .listType _, .boolType => isFalse (fun h => ExprType.noConfusion h)
  | .listType _, .intType => isFalse (fun h => ExprType.noConfusion h)
  | .listType _, .typeType => isFalse (fun h => ExprType.noConfusion h)
  | .listType _, .bottomType => isFalse (fun h => ExprType.noConfusion h)
  | .listType _, .setType _ => isFalse (fun h => ExprType.noConfusion h)
  | .listType _, .functionType _ _ => isFalse (fun h => ExprType.noConfusion h)
  | .listType _, .customType _ _ _ => isFalse (fun h => ExprType.noConfusion h)
  | .setType _, .boolType => isFalse (fun h => ExprType.noConfusion h)
  | .setType _, .intType => isFalse (fun h => ExprType.noConfusion h)
  | .setType _, .typeType => isFalse (fun h => ExprType.noConfusion h)
  | .setType _, .bottomType => isFalse (fun h => ExprType.noConfusion h)
  | .setType _, .listType _ => isFalse (fun h => ExprType.noConfusion h)
  | .setType _, .functionType _ _ => isFalse (fun h => ExprType.noConfusion h)
  | .setType _, .customType _ _ _ => isFalse (fun h => ExprType.noConfusion h)
  | .functionType _ _, .boolType => isFalse (fun h => ExprType.noConfusion h)
  | .functionType _ _, .intType => isFalse (fun h => ExprType.noConfusion h)
  | .functionType _ _, .typeType => isFalse (fun h => ExprType.noConfusion h)
  | .functionType _ _, .bottomType => isFalse (fun h => ExprType.noConfusion h)
  | .functionType _ _, .listType _ => isFalse (fun h => ExprType.noConfusion h)
  | .functionType _ _, .setType _ => isFalse (fun h => ExprType.noConfusion h)
  | .functionType _ _, .customType _ _ _ => isFalse (fun h => ExprType.noConfusion h)
  | .customType _ _ _, .boolType => isFalse (fun h => ExprType.noConfusion h)
  | .customType _ _ _, .intType => isFalse (fun h => ExprType.noConfusion h)
  | .customType _ _ _, .typeType => isFalse (fun h => ExprType.noConfusion h)
  | .customType _ _ _, .bottomType => isFalse (fun h => ExprType.noConfusion h)
  | .customType _ _ _, .listType _ => isFalse (fun h => ExprType.noConfusion h)
  | .customType _ _ _, .setType _ => isFalse (fun h => ExprType.noConfusion h)
  | .customType _ _ _, .functionType _ _ => isFalse (fun h => ExprType.noConfusion h)

/-- Elementwise decidable equality for argument-type lists. -/
def ExprType.decEqList : (a b : List ExprType) → Decidable (a = b)
  | [], [] => isTrue rfl
  | [], _ :: _ => isFalse (fun h => List.noConfusion h)
  | _ :: _, [] => isFalse (fun h => List.noConfusion h)
  | a :: as₁, b :: bs₁ =>
      match ExprType.decEq a b, ExprType.decEqList as₁ bs₁ with
      | isTrue h₁, isTrue h₂ => isTrue (by rw [h₁, h₂])
      | isFalse h₁, _ => isFalse (by intro hh; injection hh; contradiction)
      | _, isFalse h₂ => isFalse (by intro hh; injection hh; contradiction)

/-- Elementwise decidable equality for `(field name, field type)` lists. -/
def ExprType.decEqFields : (a b : List (String × ExprType)) → Decidable (a = b)
  | [], [] => isTrue rfl
  | [], _ :: _ => isFalse (fun h => List.noConfusion h)
  | _ :: _, [] => isFalse (fun h => List.noConfusion h)
  | (n₁, t₁) :: fs₁, (n₂, t₂) :: fs₂ =>
      match String.decEq n₁ n₂, ExprType.decEq t₁ t₂, ExprType.decEqFields fs₁ fs₂ with
      | isTrue h₁, isTrue h₂, isTrue h₃ => isTrue (by rw [h₁, h₂, h₃])
      | isFalse h₁, _, _ =>
          isFalse (by intro hh; injection hh with h₄ h₅; injection h₄; contradiction)
      | _, isFalse h₂, _ =>
          isFalse (by intro hh; injection hh with h₄ h₅; injection h₄; contradiction)
      | _, _, isFalse h₃ => isFalse (by intro hh; injection hh; contradiction)

end

instance : DecidableEq ExprType := ExprType.decEq

end Ir3

namespace Ir3

/-- Modelled from the spec: the fragment of the `ir3` expression model
(`_py2tmp/ir3.py` is not among the sources) needed by the verified
elaboration rules, following §3.2 ("Each expression carries its `HType`.
Variants include: literals (bool, int, ...), variable reference (with
flags: is-global-function, may-throw), list/set construction, ...,
equality/inequality, ...") with the constructor names used by
`ast_to_ir3.py`. -/
inductive Expr where
  | boolLiteral (value : Bool)
  | intLiteral (value : Int)
  | varReference (type : ExprType) (name : String) (is_global_function : Bool)
      (is_function_that_may_throw : Bool)
  | equalityComparison (lhs rhs : Expr)
  | notExpr (expr : Expr)
  | listExpr (elem_type : ExprType) (elem_exprs : List Expr)

/-- Modelled from the spec: the `type` carried by each ir3 expression
(§3.2); bool/int literals have `Bool`/`Int` type, an equality comparison
and a negation have `Bool` type, a list display has `List(elem)` type. -/
def Expr.type : Expr → ExprType
  | .boolLiteral _ => .boolType
  | .intLiteral _ => .intType
  | .varReference t _ _ _ => t
  | .equalityComparison _ _ => .boolType
  | .notExpr _ => .boolType
  | .listExpr t _ => .listType t

/-- Modelled from the spec: `ir3.Assert` carries the checked `Bool`
expression and the formatted diagnostic message (§4.3). -/
structure Assert where
  expr : Expr
  message : String

/-- The `isinstance(type, ir3.FunctionType)` test used throughout
`ast_to_ir3.py`. -/
def ExprType.is_function_type : ExprType → Bool
  | .functionType _ _ => true
  | _ => false

end Ir3

namespace AstToIr3

open Ir3

/-- The distinct `CompilationError` raise sites of `ast_to_ir3.py` that the
verified claims touch; `error` carries a message that is a fixed string at
its raise site, the other constructors carry the data interpolated into
their messages (the surrounding `<file>:<line>:<col>` formatting done by
`CompilationError.__init__` is not modelled). -/
inductive CompilationError where
  | error (message : String)
  | conflictingTypesInBranches (symbol_name : String) (branch2_type branch1_type : ExprType)
  | assertNotBool (type : ExprType)
  | eqTypeMismatch (op : String) (lhs_type rhs_type : ExprType)
  | eqTypeNotSupported (type : ExprType)
  | listElemTypeMismatch (elem_type first_type : ExprType)
  | listOfFunctionsNotSupported (elem_type : ExprType)
  | lambdaArgNotUsedInAnyPattern (arg_name : String)
deriving DecidableEq

/-- How an elaboration step can abort: a user-facing `CompilationError`,
or a Python-level `NotImplementedError` / failed `assert` (which the spec
classifies as internal bugs, §7). -/
inductive Failure where
  | compilationError (e : CompilationError)
  | notImplementedError
  | assertionError
deriving DecidableEq

/-- One entry of `SymbolTable.symbols_by_name` (ast_to_ir3.py lines 36-60)
as far as `_join_definitions_in_branches` reads it: the symbol's type and
its `is_only_partially_defined` flag (the defining AST node is only used
for diagnostics and is not modelled). -/
structure SymbolEntry where
  type : ExprType
  is_only_part_defined : Bool
deriving DecidableEq

/-- A branch scope's `symbols_by_name` dict, as an insertion-ordered
association list with unique keys. -/
def SymbolTable := List (String × SymbolEntry)

/-- Dict lookup `symbols_by_name[symbol_name]`. -/
def SymbolTable.lookup (tbl : SymbolTable) (symbol_name : String) : Option SymbolEntry :=
  match tbl.find? (fun entry => entry.1 == symbol_name) with
  | some entry => some entry.2
  | none => none

/-- One symbol added to the parent context by
`_join_definitions_in_branches` via `parent_context.add_symbol` (lines
523-527), with `is_function_that_may_throw` recomputed as
`isinstance(symbol.type, ir3.FunctionType)`. -/
structure Addition where
  name : String
  type : ExprType
  is_only_part_defined : Bool
  is_function_that_may_throw : Bool
deriving DecidableEq

/-- The body of the `for symbol_name in symbol_names` loop of
`_join_definitions_in_branches` (ast_to_ir3.py lines 483-527) for one
name.  `r1`/`r2` are `branch1_return_info.always_returns` and
`branch2_return_info.always_returns` (with `branch2_return_info` defaulting
to not-always-returns when the else branch is empty, lines 472-475). -/
def join_one (branch1 : SymbolTable) (r1 : Bool) (branch2 : SymbolTable) (r2 : Bool)
    (symbol_name : String) : Except CompilationError Addition :=
  let branch1_symbol := if r1 then none else branch1.lookup symbol_name
  let branch2_symbol := if r2 then none else branch2.lookup symbol_name
  match branch1_symbol, branch2_symbol with
  | some s1, some s2 =>
      if s1.type ≠ s2.type then
        .error (.conflictingTypesInBranches symbol_name s2.type s1.type)
      else
        .ok ⟨symbol_name, s1.type, s1.is_only_part_defined || s2.is_only_part_defined,
             s1.type.is_function_type⟩
  | some s1, none =>
      .ok ⟨symbol_name, s1.type,
           if r2 then s1.is_only_part_defined else true,
           s1.type.is_function_type⟩
  | none, some s2 =>
      .ok ⟨symbol_name, s2.type,
           if r1 then s2.is_only_part_defined else true,
           s2.type.is_function_type⟩
  | none, none =>
      -- Unreachable from `join_definitions_in_branches` (the name comes from a
      -- branch that is considered); Python fails its `assert branch2_symbol`.
      .error (.error "internal: assert branch2_symbol failed")

/-- The `symbol_names` set built at lines 477-481: keys of each branch
scope whose branch does not always-return.  Python iterates a `set` in
unspecified order; the embedding fixes branch-1 keys first, then the
branch-2 keys not already present (each per-name result is independent of
this order). -/
def join_symbol_names (branch1 : SymbolTable) (r1 : Bool) (branch2 : SymbolTable) (r2 : Bool) :
    List String :=
  let names1 := if r1 then [] else branch1.map (fun entry => entry.1)
  let names2 := if r2 then [] else branch2.map (fun entry => entry.1)
  names1 ++ names2.filter (fun n => !names1.contains n)

/-- Sequential traversal with early error exit: the `for symbol_name in
symbol_names` loop calling `parent_context.add_symbol`, which raises on
the first error. -/
def map_except {α β ε : Type} (f : α → Except ε β) : List α → Except ε (List β)
  | [] => .ok []
  | x :: xs => do
      let b ← f x
      let bs ← map_except f xs
      .ok (b :: bs)

/-- Embeds `_join_definitions_in_branches` (ast_to_ir3.py lines 466-527):
the sequence of symbols added to the parent scope, or the first
`CompilationError` raised. -/
def join_definitions_in_branches (branch1 : SymbolTable) (r1 : Bool)
    (branch2 : SymbolTable) (r2 : Bool) : Except CompilationError (List Addition) :=
  map_except (join_one branch1 r1 branch2 r2) (join_symbol_names branch1 r1 branch2 r2)

/-- The `n` attribute of an `ast.Num` node: a Python `int`, `float` or
`complex` literal. -/
inductive PyNumber where
  | int (n : Int)
  | float
  | complex

/-- Embeds `number_literal_expression_ast_to_ir3` (ast_to_ir3.py lines
933-952): reject floats and complex numbers, negate when the literal
occurs under a unary minus (`positive=False`), and bounds-check against
the signed 64-bit range. -/
def number_literal_expression_ast_to_ir3 (n : PyNumber) (positive : Bool) :
    Except Failure Ir3.Expr :=
  match n with
  | .float => .error (.compilationError (.error "Floating-point values are not supported."))
  | .complex => .error (.compilationError (.error "Complex values are not supported."))
  | .int n0 =>
      let n := if positive then n0 else -n0
      if n ≤ -2 ^ 63 then
        .error (.compilationError (.error
          "int value out of bounds: values lower than -2^63+1 are not supported."))
      else if n ≥ 2 ^ 63 then
        .error (.compilationError (.error
          "int value out of bounds: values greater than 2^63-1 are not supported."))
      else
        .ok (.intLiteral n)

/-- Python `str.replace` (left-to-right, non-overlapping), implemented
over the character list (Lean's own `String.replace` is defined by
well-founded recursion and does not reduce in the kernel).  The fuel is
the input length; a successful match consumes at least one character, so
the fuel never runs out on the calls below (the pattern is never empty). -/
def py_replace_go (pat repl : List Char) : Nat → List Char → List Char
  | 0, l => l
  | _ + 1, [] => []
  | fuel + 1, c :: rest =>
      if pat.isPrefixOf (c :: rest) then
        repl ++ py_replace_go pat repl fuel ((c :: rest).drop pat.length)
      else
        c :: py_replace_go pat repl fuel rest

/-- Python `s.replace(pattern, replacement)`. -/
def py_str_replace (s pattern replacement : String) : String :=
  String.mk (py_replace_go pattern.data replacement.data s.data.length s.data)

/-- Embeds `assert_ast_to_ir3` (ast_to_ir3.py lines 763-784).  The checked
expression is taken already elaborated (the call to `expression_ast_to_ir3`
at line 764 is outside this claim); `msg` is the optional message string
literal, `source_lines` the raw source.  Note the escaping chain at line
782 is transcribed with Python string-literal semantics: `'\"'` denotes a
plain double-quote, so the middle `replace` maps `"` to itself. -/
def assert_ast_to_ir3 (expr : Ir3.Expr) (msg : Option String) (filename : String)
    (first_line_number : Nat) (source_lines : List String) : Except Failure Ir3.Assert :=
  if expr.type ≠ ExprType.boolType then
    .error (.compilationError (.assertNotBool expr.type))
  else
    let message := match msg with
      | some s => s
      | none => ""
    match source_lines.get? (first_line_number - 1) with
    | none => .error .assertionError
    | some line =>
        let message := "TMPPy assertion failed: " ++ message ++ "\n" ++ filename ++ ":"
          ++ toString first_line_number ++ ": " ++ line
        let message := py_str_replace (py_str_replace (py_str_replace message "\\" "\\\\")
          "\"" "\"") "\n" "\\n"
        .ok ⟨expr, message⟩

mutual

/-- Embeds `_is_structural_equality_check_supported_for_type`
(ast_to_ir3.py lines 1598-1615).  `none` models the `NotImplementedError`
raised for an unexpected type (`BottomType`). -/
def is_structural_equality_check_supported_for_type : ExprType → Option Bool
  | .boolType => some true
  | .intType => some true
  | .typeType => some true
  | .functionType _ _ => some false
  | .listType elem_type => is_structural_equality_check_supported_for_type elem_type
  | .setType _ => some false
  | .customType _ arg_types _ => all_fields_structural_equality_supported arg_types
  | .bottomType => none

/-- The `all(...)` generator over a custom type's field types (line 1612),
with Python's short-circuiting: a `False` field stops the iteration before
a later field could raise. -/
def all_fields_structural_equality_supported : List (String × ExprType) → Option Bool
  | [] => some true
  | (_, t) :: rest => do
      let b ← is_structural_equality_check_supported_for_type t
      if b then all_fields_structural_equality_supported rest else some false

end

/-- Embeds `_is_equality_check_supported_for_type` (ast_to_ir3.py lines
1617-1621): sets defer to the structural check on their element type,
everything else to the structural check on the type itself. -/
def is_equality_check_supported_for_type : ExprType → Option Bool
  | .setType elem_type => is_structural_equality_check_supported_for_type elem_type
  | t => is_structural_equality_check_supported_for_type t

/-- Embeds `eq_ast_to_ir3` (ast_to_ir3.py lines 1623-1637).  The two
operands are taken already elaborated (the `expression_ast_to_ir3` calls
at lines 1630-1631 are outside this claim). -/
def eq_ast_to_ir3 (lhs rhs : Ir3.Expr) : Except Failure Ir3.Expr :=
  if lhs.type ≠ rhs.type then
    .error (.compilationError (.eqTypeMismatch "==" lhs.type rhs.type))
  else
    match is_equality_check_supported_for_type lhs.type with
    | none => .error .notImplementedError
    | some false => .error (.compilationError (.eqTypeNotSupported lhs.type))
    | some true => .ok (.equalityComparison lhs rhs)

/-- The `for elem_expr, ... in zip(...)` loop of
`list_expression_ast_to_ir3` (lines 1850-1855): the first element whose
type differs from the first element's type, if any. -/
def first_list_elem_type_mismatch (elem_type : ExprType) : List Ir3.Expr → Option Ir3.Expr
  | [] => none
  | e :: rest =>
      if e.type ≠ elem_type then some e else first_list_elem_type_mismatch elem_type rest

/-- Embeds `list_expression_ast_to_ir3` (ast_to_ir3.py lines 1842-1860).
The element expressions are taken already elaborated (line 1846 is outside
this claim); the compilation context only feeds diagnostics and does not
influence the result. -/
def list_expression_ast_to_ir3 (elem_exprs : List Ir3.Expr) : Except Failure Ir3.Expr :=
  match elem_exprs with
  | [] => .error (.compilationError (.error
      "Untyped empty lists are not supported. Please import empty_list from pytmp and then write e.g. empty_list(int) to create an empty list of ints."))
  | first :: _ =>
      let elem_type := first.type
      match first_list_elem_type_mismatch elem_type elem_exprs with
      | some bad_elem =>
          .error (.compilationError (.listElemTypeMismatch bad_elem.type elem_type))
      | none =>
          if elem_type.is_function_type then
            .error (.compilationError (.listOfFunctionsNotSupported elem_type))
          else
            .ok (.listExpr elem_type elem_exprs)

/-- The `max(unused_lambda_arg_names, key=...)` pick of
`match_expression_ast_to_ir3` (line 405): the element of `l` with the
greatest index in `lambda_arg_names` (Python `max` keeps the first of any
ties; lambda parameter names are distinct so ties do not occur). -/
def max_by_lambda_arg_index (lambda_arg_names : List String) (l : List String) : Option String :=
  l.foldl
    (fun best n =>
      match best with
      | none => some n
      | some b =>
          if lambda_arg_names.indexOf n > lambda_arg_names.indexOf b then some n else some b)
    none

/-- Embeds the unused-lambda-parameter bookkeeping of
`match_expression_ast_to_ir3` (ast_to_ir3.py lines 314-315, 363-368 and
404-408): `unused_lambda_arg_names` starts as the set of lambda parameter
names; for each branch, the free variable names of its elaborated
patterns that are lambda parameters are discarded; if any name remains a
`CompilationError` naming the remaining parameter with the greatest index
is raised.  `branch_pattern_vars` lists, per branch, the free-variable
names of that branch's patterns. -/
def match_unused_lambda_arg_check (lambda_arg_names : List String)
    (branch_pattern_vars : List (List String)) : Option CompilationError :=
  let unused := branch_pattern_vars.foldl
    (fun unused pattern_vars =>
      let lambda_args_used_in_pattern :=
        pattern_vars.filter (fun v => lambda_arg_names.contains v)
      unused.filter (fun name => !lambda_args_used_in_pattern.contains name))
    lambda_arg_names
  match max_by_lambda_arg_index lambda_arg_names unused with
  | none => none
  | some unused_arg_name => some (.lambdaArgNotUsedInAnyPattern unused_arg_name)

end AstToIr3

namespace Ir0ToCpp

open Ir0

/-- The parameter the guard loop of `static_assert_to_cpp` (lines 135-147)
binds: the first enclosing template parameter whose kind is `BOOL`,
`INT64` or `TYPE`. -/
def first_scalar_param : List TemplateArgDecl → Option TemplateArgDecl
  | [] => none
  | arg_decl :: rest =>
      match arg_decl.type.kind with
      | .bool => some arg_decl
      | .int64 => some arg_decl
      | .type => some arg_decl
      | _ => first_scalar_param rest

/-- A chain of reference / rvalue-reference type constructors around an
inner type expression: `true` links are `ReferenceTypeExpr`, `false` links
`RvalueReferenceTypeExpr`. -/
def build_ref_chain : List Bool → Expr → Expr
  | [], inner => inner
  | is_ref :: rest, inner =>
      if is_ref then .referenceTypeExpr (build_ref_chain rest inner)
      else .rvalueReferenceTypeExpr (build_ref_chain rest inner)

/-- A concrete writer state with a deterministic identifier generator,
used to evaluate the emitter at concrete inputs. -/
def sample_emit_state : EmitState :=
  ⟨fun n => "tmppy_internal_" ++ toString n, 0, [], []⟩

/-- The writer state after emitting `static_assert(true, "m")` inside a
template whose only parameter is `int64_t n`. -/
def sample_assert_out_state : EmitState :=
  sample_emit_state.write_template_body_elem
    "static_assert(AlwaysTrueFromInt64<n>::value && true, \"m\");"

end Ir0ToCpp

namespace AstToIr3

open Ir3

/-- The property claim C3 asserts of `_join_definitions_in_branches`, as
stated: (1) a name bound in both considered branches with different types
raises a `CompilationError`; (2) a name bound only in branch 1 — or whose
branch-2 is ignored because it always-returns — is added partially
defined, unless branch 2 always-returns, in which case fully defined;
(3) symmetrically for branch 2. -/
def join_claim_as_stated : Prop :=
  (∀ (branch1 branch2 : SymbolTable) (r1 r2 : Bool) (name : String) (s1 s2 : SymbolEntry),
    r1 = false → r2 = false →
    branch1.lookup name = some s1 → branch2.lookup name = some s2 →
    s1.type ≠ s2.type →
    ∃ e, join_definitions_in_branches branch1 r1 branch2 r2 = .error e)
  ∧ (∀ (branch1 branch2 : SymbolTable) (r1 r2 : Bool) (name : String) (s1 : SymbolEntry)
        (adds : List Addition),
      join_definitions_in_branches branch1 r1 branch2 r2 = .ok adds →
      r1 = false → branch1.lookup name = some s1 →
      (r2 = true ∨ branch2.lookup name = none) →
      ∃ a ∈ adds, a.name = name ∧ a.type = s1.type ∧ a.is_only_part_defined = !r2)
  ∧ (∀ (branch1 branch2 : SymbolTable) (r1 r2 : Bool) (name : String) (s2 : SymbolEntry)
        (adds : List Addition),
      join_definitions_in_branches branch1 r1 branch2 r2 = .ok adds →
      r2 = false → branch2.lookup name = some s2 →
      (r1 = true ∨ branch1.lookup name = none) →
      ∃ a ∈ adds, a.name = name ∧ a.type = s2.type ∧ a.is_only_part_defined = !r1)

/-- Shorthand: the source's structural-equality predicate holds (returns
`some true`). -/
def structural_equality_supported_b (t : ExprType) : Bool :=
  is_structural_equality_check_supported_for_type t == some true

/-- The equality-supported predicate exactly as claim C6 words it (for
comparison with the source-derived `_is_equality_check_supported_for_type`):
`Bool`, `Int` and `TypeRef` supported; a `List` of a *supported* element
type supported; a `Set` supported exactly when its element type is
structural-equality-supported; a `Custom` type supported exactly when
every field is structural-equality-supported; functions never. -/
def claim_equality_supported : ExprType → Bool
  | .boolType => true
  | .intType => true
  | .typeType => true
  | .listType elem_type => claim_equality_supported elem_type
  | .setType elem_type => structural_equality_supported_b elem_type
  | .customType _ arg_types _ => arg_types.all (fun f => structural_equality_supported_b f.2)
  | .functionType _ _ => false
  | .bottomType => false

/-- The property claim C6 asserts of `eq_ast_to_ir3`. -/
def eq_claim_as_stated : Prop :=
  ∀ lhs rhs : Ir3.Expr, lhs.type = rhs.type →
    ((∃ out, eq_ast_to_ir3 lhs rhs = .ok out) ↔ claim_equality_supported lhs.type = true)

/-- The amended C6 predicate: as the claim words it, except that a `List`
is supported exactly when its *element type is structural-equality-
supported* (so lists of sets are not supported, matching the source). -/
def amended_equality_supported : ExprType → Bool
  | .boolType => true
  | .intType => true
  | .typeType => true
  | .listType elem_type => structural_equality_supported_b elem_type
  | .setType elem_type => structural_equality_supported_b elem_type
  | .customType _ arg_types _ => arg_types.all (fun f => structural_equality_supported_b f.2)
  | .functionType _ _ => false
  | .bottomType => false

end AstToIr3

/-- C9: for every `Header` and every `Transformation`, `transform_header`
returns a `Header` whose `public_names` field is exactly the
`public_names` of the input header, regardless of how the transformation
rewrites template definitions and top-level content or what fresh
definitions it injects. -/
theorem transform_header_preserves_public_names
    (t : TransformIr0.Transformation) (header : Ir0.Header) :
    (t.transform_header header).public_names = header.public_names :=
  rfl

/-- C2, failing input: when `template_instantiation_to_cpp` rewrites the
argument of a flagged instantiation and the replaced argument has kind
`INT64` while the selected enclosing parameter has kind `VARIADIC_TYPE`,
the emitted wrapper name is `Select1stInt64TypeType` — not
`Select1stInt64Type`, and not one of the nine predefined
`Select1st{Bool,Int64,Type}{Bool,Int64,Type}` names the claim (and the
code's own comment about using the `*Type` variants for variadic types)
allows. -/
theorem select1st_int64_variadic_failing_input :
    (Ir0ToCpp.template_instantiation_to_cpp 20
        (.atomicTypeLiteral "F" false true (.templateType [.int64Type]))
        [.literal (.int 5)] true [⟨.variadicType, "Args"⟩] false
        Ir0ToCpp.sample_emit_state).map Prod.fst
      = some "F<Select1stInt64TypeType<5LL, Args>::value>"
    ∧ Ir0ToCpp.select1st_variant .int64 .variadicType = some "Select1stInt64TypeType"
    ∧ "Select1stInt64TypeType" ∉
        ["Select1stBoolBool", "Select1stBoolInt64", "Select1stBoolType",
         "Select1stInt64Bool", "Select1stInt64Int64", "Select1stInt64Type",
         "Select1stTypeBool", "Select1stTypeInt64", "Select1stTypeType"] :=
  ⟨rfl, rfl, by decide⟩

/-- C5, failing input: the escaping chain of `assert_ast_to_ir3` uses the
Python literal `'\"'`, which denotes a plain double-quote, so double
quotes in the composed message are *not* escaped: for the message literal
`a"b` the produced diagnostic still contains the bare `a"b` (backslashes
and newlines are escaped as claimed). -/
theorem assert_message_quote_unescaped :
    AstToIr3.assert_ast_to_ir3 (.varReference .boolType "b" false false) (some "a\"b")
        "f.py" 1 ["assert b"]
      = .ok ⟨.varReference .boolType "b" false false,
             "TMPPy assertion failed: a\"b\\nf.py:1: assert b"⟩ :=
  rfl

/-- C4: elaboration of an integer literal (with sign context `positive`)
produces an `IntLiteral` with the literal's value exactly when the value
lies in the signed-64-bit interval `[-(2^63-1), 2^63-1]` (strictly within
the two's-complement bounds `±2^63`), and raises a `CompilationError`
otherwise; floating-point and complex literals always raise a
`CompilationError`. -/
theorem int_literal_range_check (n0 : Int) (positive : Bool) :
    (AstToIr3.number_literal_expression_ast_to_ir3 (.int n0) positive
        = .ok (.intLiteral (if positive then n0 else -n0))
      ↔ -(2 ^ 63 - 1) ≤ (if positive then n0 else -n0)
          ∧ (if positive then n0 else -n0) ≤ 2 ^ 63 - 1)
    ∧ (¬(-(2 ^ 63 - 1) ≤ (if positive then n0 else -n0)
          ∧ (if positive then n0 else -n0) ≤ 2 ^ 63 - 1) →
        ∃ e, AstToIr3.number_literal_expression_ast_to_ir3 (.int n0) positive
          = .error (.compilationError e))
    ∧ AstToIr3.number_literal_expression_ast_to_ir3 .float positive
        = .error (.compilationError (.error "Floating-point values are not supported."))
    ∧ AstToIr3.number_literal_expression_ast_to_ir3 .complex positive
        = .error (.compilationError (.error "Complex values are not supported.")) := by
  refine ⟨?_, ?_, rfl, rfl⟩
  · cases positive <;>
      simp only [AstToIr3.number_literal_expression_ast_to_ir3, Bool.false_eq_true,
        ite_true, ite_false] <;>
      exact ⟨fun h => by
          split_ifs at h with h1 h2 <;>
            first
              | exact Except.noConfusion h
              | exact ⟨by omega, by omega⟩,
        fun hb => by
          split_ifs with h1 h2 <;>
            first
              | exact absurd h1 (by omega)
              | exact absurd h2 (by omega)
              | rfl⟩
  · cases positive <;>
      simp only [AstToIr3.number_literal_expression_ast_to_ir3, Bool.false_eq_true,
        ite_true, ite_false] <;>
      exact fun hb => by
        split_ifs with h1 h2 <;>
          first
            | exact ⟨_, rfl⟩
            | exact absurd ⟨by omega, by omega⟩ hb

/-- C4 witness: the literal `5` elaborates to `IntLiteral 5`, and the
boundary literal `2^63 - 1` is accepted while `2^63` is rejected. -/
theorem int_literal_range_check_witness :
    AstToIr3.number_literal_expression_ast_to_ir3 (.int 5) true = .ok (.intLiteral 5)
    ∧ ∃ e, AstToIr3.number_literal_expression_ast_to_ir3 (.int (2 ^ 63)) true
        = .error (.compilationError e) :=
  ⟨((int_literal_range_check 5 true).1).mpr (by norm_num),
   (int_literal_range_check (2 ^ 63) true).2.1 (by norm_num)⟩

/-- C10: elaborating a list display with zero elements always raises the
`CompilationError` directing the user to `empty_list`; a non-empty list
display never takes this error path (it may fail differently on mixed
element types or function-typed elements, but never with this error). -/
theorem empty_list_display_rejected :
    (AstToIr3.list_expression_ast_to_ir3 [] = .error (.compilationError (.error
       "Untyped empty lists are not supported. Please import empty_list from pytmp and then write e.g. empty_list(int) to create an empty list of ints.")))
    ∧ ∀ elem_exprs : List Ir3.Expr, elem_exprs ≠ [] →
        AstToIr3.list_expression_ast_to_ir3 elem_exprs
          ≠ .error (.compilationError (.error
            "Untyped empty lists are not supported. Please import empty_list from pytmp and then write e.g. empty_list(int) to create an empty list of ints.")) := by
  refine ⟨rfl, ?_⟩
  intro elem_exprs hne
  match elem_exprs with
  | [] => exact absurd rfl hne
  | first :: rest =>
      simp only [AstToIr3.list_expression_ast_to_ir3]
      split
      · intro h
        injection h with h
        injection h with h
        exact AstToIr3.CompilationError.noConfusion h
      · split
        · intro h
          injection h with h
          injection h with h
          exact AstToIr3.CompilationError.noConfusion h
        · intro h
          exact Except.noConfusion h

/-- C10 witness: the singleton list display `[3]` does not take the
empty-list error path. -/
theorem empty_list_display_rejected_witness :
    AstToIr3.list_expression_ast_to_ir3 [.intLiteral 3]
      ≠ .error (.compilationError (.error
        "Untyped empty lists are not supported. Please import empty_list from pytmp and then write e.g. empty_list(int) to create an empty list of ints.")) :=
  empty_list_display_rejected.2 [.intLiteral 3] (List.cons_ne_nil _ _)

/-- Membership in the fold that discards used lambda parameters from the
`unused` set, branch by branch. -/
theorem mem_unused_lambda_fold (lambda_arg_names : List String) (bs : List (List String)) :
    ∀ (init : List String) (x : String),
      x ∈ bs.foldl
        (fun unused pattern_vars =>
          unused.filter (fun name =>
            !(pattern_vars.filter (fun v => lambda_arg_names.contains v)).contains name)) init
      ↔ x ∈ init ∧ ∀ br ∈ bs,
          (br.filter (fun v => lambda_arg_names.contains v)).contains x = false := by
  induction bs with
  | nil => intro init x; simp
  | cons b bs ih =>
      intro init x
      simp only [List.foldl_cons, ih, List.mem_filter, List.forall_mem_cons,
        Bool.not_eq_true']
      tauto

/-- `max_by_lambda_arg_index` only ever returns an element of its input. -/
theorem max_by_lambda_arg_index_mem_aux (names : List String) :
    ∀ (l : List String) (acc : Option String) (u : String),
      l.foldl
        (fun best n =>
          match best with
          | none => some n
          | some b =>
              if names.indexOf n > names.indexOf b then some n else some b) acc = some u →
      u ∈ l ∨ acc = some u := by
  intro l
  induction l with
  | nil => intro acc u h; exact Or.inr h
  | cons n l ih =>
      intro acc u h
      rcases ih _ u h with hl | hacc
      · exact Or.inl (List.mem_cons_of_mem _ hl)
      · match acc with
        | none =>
            injection hacc with hacc
            exact Or.inl (hacc ▸ List.mem_cons_self _ _)
        | some b =>
            simp only at hacc
            split at hacc
            · injection hacc with hacc
              exact Or.inl (hacc ▸ List.mem_cons_self _ _)
            · exact Or.inr hacc

/-- Starting from a `some` accumulator, the max-by-index fold stays `some`. -/
theorem max_by_lambda_arg_index_some_aux (names : List String) :
    ∀ (l : List String) (b : String),
      l.foldl
        (fun best n =>
          match best with
          | none => some n
          | some b =>
              if names.indexOf n > names.indexOf b then some n else some b) (some b) ≠ none := by
  intro l
  induction l with
  | nil => intro b h; exact Option.noConfusion h
  | cons n l ih =>
      intro b
      simp only [List.foldl_cons]
      split
      · exact ih n
      · exact ih b

/-- C8: the unused-lambda-parameter check of `match_expression_ast_to_ir3`
passes exactly when every lambda parameter occurs in at least one branch's
patterns, and otherwise raises a `CompilationError` naming an offending
parameter (one occurring in no branch's patterns). -/
theorem match_unused_lambda_arg_check_correct (lambda_arg_names : List String)
    (branch_pattern_vars : List (List String)) :
    (AstToIr3.match_unused_lambda_arg_check lambda_arg_names branch_pattern_vars = none
      ↔ ∀ arg ∈ lambda_arg_names, ∃ pattern_vars ∈ branch_pattern_vars, arg ∈ pattern_vars)
    ∧ ∀ e, AstToIr3.match_unused_lambda_arg_check lambda_arg_names branch_pattern_vars = some e →
        ∃ arg, e = .lambdaArgNotUsedInAnyPattern arg ∧ arg ∈ lambda_arg_names ∧
          ∀ pattern_vars ∈ branch_pattern_vars, arg ∉ pattern_vars := by
  have hmem : ∀ x,
      x ∈ branch_pattern_vars.foldl
        (fun unused pattern_vars =>
          unused.filter (fun name =>
            !(pattern_vars.filter (fun v => lambda_arg_names.contains v)).contains name))
        lambda_arg_names
      ↔ x ∈ lambda_arg_names ∧ ∀ br ∈ branch_pattern_vars, x ∉ br := by
    intro x
    rw [mem_unused_lambda_fold]
    constructor
    · rintro ⟨hx, hall⟩
      refine ⟨hx, fun br hbr hxbr => ?_⟩
      have := hall br hbr
      simp only [List.contains, List.elem_eq_mem, decide_eq_false_iff_not] at this
      exact this (List.mem_filter.mpr ⟨hxbr, by
        simp only [List.contains, List.elem_eq_mem, decide_eq_true_eq]
        exact hx⟩)
    · rintro ⟨hx, hall⟩
      refine ⟨hx, fun br hbr => ?_⟩
      simp only [List.contains, List.elem_eq_mem, decide_eq_false_iff_not]
      intro hmem2
      exact hall br hbr (List.mem_filter.mp hmem2).1
  have hfold_or : ∀ u, AstToIr3.max_by_lambda_arg_index lambda_arg_names
      (branch_pattern_vars.foldl
        (fun unused pattern_vars =>
          unused.filter (fun name =>
            !(pattern_vars.filter (fun v => lambda_arg_names.contains v)).contains name))
        lambda_arg_names) = some u →
      u ∈ branch_pattern_vars.foldl
        (fun unused pattern_vars =>
          unused.filter (fun name =>
            !(pattern_vars.filter (fun v => lambda_arg_names.contains v)).contains name))
        lambda_arg_names := by
    intro u hu
    rcases max_by_lambda_arg_index_mem_aux lambda_arg_names _ none u hu with hl | hacc
    · exact hl
    · exact Option.noConfusion hacc
  cases hm : AstToIr3.max_by_lambda_arg_index lambda_arg_names
      (branch_pattern_vars.foldl
        (fun unused pattern_vars =>
          unused.filter (fun name =>
            !(pattern_vars.filter (fun v => lambda_arg_names.contains v)).contains name))
        lambda_arg_names) with
  | none =>
      refine ⟨⟨fun _ arg harg => ?_, fun _ => ?_⟩, fun e he => ?_⟩
      · by_contra hno
        push_neg at hno
        have hin := (hmem arg).mpr ⟨harg, hno⟩
        rcases List.exists_cons_of_ne_nil (List.ne_nil_of_mem hin) with ⟨y, ys, hys⟩
        rw [hys] at hm
        unfold AstToIr3.max_by_lambda_arg_index at hm
        simp only [List.foldl_cons] at hm
        exact max_by_lambda_arg_index_some_aux lambda_arg_names ys y hm
      · simp only [AstToIr3.match_unused_lambda_arg_check, hm]
      · simp only [AstToIr3.match_unused_lambda_arg_check, hm] at he
        exact Option.noConfusion he
  | some u =>
      refine ⟨⟨fun h => ?_, fun hall => ?_⟩, fun e he => ?_⟩
      · simp only [AstToIr3.match_unused_lambda_arg_check, hm] at h
        exact Option.noConfusion h
      · exfalso
        rcases (hmem u).mp (hfold_or u hm) with ⟨hu, hunused⟩
        rcases hall u hu with ⟨br, hbr, hubr⟩
        exact hunused br hbr hubr
      · simp only [AstToIr3.match_unused_lambda_arg_check, hm, Option.some.injEq] at he
        exact ⟨u, he.symm, (hmem u).mp (hfold_or u hm)⟩

/-- C8 witness: for `match(T)(lambda a, b: ...)` with the single pattern
`T`, the check raises naming `b`, which indeed occurs in no pattern. -/
theorem match_unused_lambda_arg_check_witness :
    ∃ arg, AstToIr3.CompilationError.lambdaArgNotUsedInAnyPattern "b"
        = .lambdaArgNotUsedInAnyPattern arg ∧ arg ∈ ["a", "b"] ∧
        ∀ pattern_vars ∈ [["T"]], arg ∉ pattern_vars :=
  (match_unused_lambda_arg_check_correct ["a", "b"] [["T"]]).2 _ rfl

/-- If `map_except` succeeds, every input element maps successfully to
some output element. -/
theorem map_except_ok_mem {α β ε : Type} (f : α → Except ε β) :
    ∀ (l : List α) (out : List β), AstToIr3.map_except f l = .ok out →
      ∀ a ∈ l, ∃ b ∈ out, f a = .ok b := by
  intro l
  induction l with
  | nil => intro out _ a ha; exact absurd ha (List.not_mem_nil a)
  | cons x xs ih =>
      intro out hout a ha
      unfold AstToIr3.map_except at hout
      cases hfx : f x with
      | error e => rw [hfx] at hout; exact Except.noConfusion hout
      | ok b =>
          rw [hfx] at hout
          cases hrest : AstToIr3.map_except f xs with
          | error e => rw [hrest] at hout; exact Except.noConfusion hout
          | ok bs =>
              rw [hrest] at hout
              have hout2 : (Except.ok (b :: bs) : Except ε (List β)) = Except.ok out := hout
              injection hout2 with hout3
              subst hout3
              rcases List.mem_cons.mp ha with rfl | hmem
              · exact ⟨b, List.mem_cons_self _ _, hfx⟩
              · rcases ih bs hrest a hmem with ⟨b', hb', hfb'⟩
                exact ⟨b', List.mem_cons_of_mem _ hb', hfb'⟩

/-- If some input element of a `map_except` fails, the whole traversal
fails (with the first failure encountered). -/
theorem map_except_error_of_mem {α β ε : Type} (f : α → Except ε β) :
    ∀ (l : List α) (a : α), a ∈ l → (∃ e, f a = .error e) →
      ∃ e', AstToIr3.map_except f l = .error e' := by
  intro l
  induction l with
  | nil => intro a ha; exact absurd ha (List.not_mem_nil a)
  | cons x xs ih =>
      intro a ha ⟨e, hfa⟩
      unfold AstToIr3.map_except
      cases hfx : f x with
      | error e₀ => exact ⟨e₀, rfl⟩
      | ok b =>
          rcases List.mem_cons.mp ha with rfl | hmem
          · rw [hfa] at hfx; exact Except.noConfusion hfx
          · rcases ih a hmem ⟨e, hfa⟩ with ⟨e', he'⟩
            refine ⟨e', ?_⟩
            rw [he']
            rfl

/-- A successful lookup means the name is among the table's keys. -/
theorem lookup_some_mem_keys (tbl : AstToIr3.SymbolTable) (name : String)
    (s : AstToIr3.SymbolEntry) (h : tbl.lookup name = some s) :
    name ∈ tbl.map (fun entry => entry.1) := by
  unfold AstToIr3.SymbolTable.lookup at h
  cases hfind : List.find? (fun entry => entry.1 == name) tbl with
  | none => rw [hfind] at h; exact Option.noConfusion h
  | some entry =>
      have hmem := List.mem_of_find?_eq_some hfind
      have hpred := List.find?_some hfind
      simp only [beq_iff_eq] at hpred
      exact hpred ▸ List.mem_map_of_mem (fun entry => entry.1) hmem

/-- A failed lookup means the name is not among the table's keys. -/
theorem lookup_none_not_mem_keys (tbl : AstToIr3.SymbolTable) (name : String)
    (h : tbl.lookup name = none) :
    name ∉ tbl.map (fun entry => entry.1) := by
  unfold AstToIr3.SymbolTable.lookup at h
  cases hfind : List.find? (fun entry => entry.1 == name) tbl with
  | some entry => rw [hfind] at h; exact Option.noConfusion h
  | none =>
      intro hmem
      rcases List.mem_map.mp hmem with ⟨entry, hentry, hname⟩
      have := List.find?_eq_none.mp hfind entry hentry
      simp only [beq_iff_eq] at this
      exact this hname

/-- A name bound in a non-always-returning branch is in the joined name
list. -/
theorem mem_join_symbol_names_left (branch1 branch2 : AstToIr3.SymbolTable)
    (r2 : Bool) (name : String) (s1 : AstToIr3.SymbolEntry)
    (h : branch1.lookup name = some s1) :
    name ∈ AstToIr3.join_symbol_names branch1 false branch2 r2 := by
  unfold AstToIr3.join_symbol_names
  simp only [Bool.false_eq_true, ite_false]
  exact List.mem_append_left _ (lookup_some_mem_keys branch1 name s1 h)

/-- A name bound in a non-always-returning second branch is in the joined
name list. -/
theorem mem_join_symbol_names_right (branch1 branch2 : AstToIr3.SymbolTable)
    (r1 : Bool) (name : String) (s2 : AstToIr3.SymbolEntry)
    (h : branch2.lookup name = some s2) :
    name ∈ AstToIr3.join_symbol_names branch1 r1 branch2 false := by
  unfold AstToIr3.join_symbol_names
  simp only [Bool.false_eq_true, ite_false]
  by_cases hmem1 : name ∈ (if r1 then [] else branch1.map (fun entry => entry.1))
  · exact List.mem_append_left _ hmem1
  · refine List.mem_append_right _ (List.mem_filter.mpr
      ⟨lookup_some_mem_keys branch2 name s2 h, ?_⟩)
    simp only [Bool.not_eq_true', List.contains, List.elem_eq_mem, decide_eq_false_iff_not]
    exact hmem1

/-- C3 counterexample: claim C3 as stated is false.  Take branch 1 binding
`x : Int` *partially* defined (e.g. from a nested one-armed `if`) and a
branch 2 that always-returns: the code adds `x` to the parent still
partially defined (keeping the branch's own flag, ast_to_ir3.py line 511),
whereas the claim requires it to be added fully defined. -/
theorem join_claim_counterexample : ¬ AstToIr3.join_claim_as_stated := by
  intro h
  rcases h with ⟨-, h2, -⟩
  rcases h2 [("x", ⟨.intType, true⟩)] [("y", ⟨.intType, false⟩)] false true "x"
      ⟨.intType, true⟩ [⟨"x", .intType, true, false⟩] rfl rfl rfl (Or.inl rfl)
    with ⟨a, ha, -, -, hflag⟩
  rw [List.mem_singleton] at ha
  subst ha
  simp at hflag

/-- C3 amended: after `_join_definitions_in_branches` merges two branch
scopes into the parent scope: a name bound in both branches, neither of
which always-returns, with different types raises a `CompilationError`;
a name bound in only one branch (or whose other branch always-returns) is
added to the parent as partially defined, unless the other branch
always-returns, in which case it is added with the partially-defined flag
it had in its own branch. -/
theorem join_definitions_in_branches_characterization :
    (∀ (branch1 branch2 : AstToIr3.SymbolTable) (r1 r2 : Bool) (name : String)
        (s1 s2 : AstToIr3.SymbolEntry),
      r1 = false → r2 = false →
      branch1.lookup name = some s1 → branch2.lookup name = some s2 →
      s1.type ≠ s2.type →
      ∃ e, AstToIr3.join_definitions_in_branches branch1 r1 branch2 r2 = .error e)
    ∧ (∀ (branch1 branch2 : AstToIr3.SymbolTable) (r1 r2 : Bool) (name : String)
        (s1 : AstToIr3.SymbolEntry) (adds : List AstToIr3.Addition),
      AstToIr3.join_definitions_in_branches branch1 r1 branch2 r2 = .ok adds →
      r1 = false → branch1.lookup name = some s1 →
      (r2 = true ∨ branch2.lookup name = none) →
      ∃ a ∈ adds, a.name = name ∧ a.type = s1.type ∧
        a.is_only_part_defined = (if r2 then s1.is_only_part_defined else true))
    ∧ (∀ (branch1 branch2 : AstToIr3.SymbolTable) (r1 r2 : Bool) (name : String)
        (s2 : AstToIr3.SymbolEntry) (adds : List AstToIr3.Addition),
      AstToIr3.join_definitions_in_branches branch1 r1 branch2 r2 = .ok adds →
      r2 = false → branch2.lookup name = some s2 →
      (r1 = true ∨ branch1.lookup name = none) →
      ∃ a ∈ adds, a.name = name ∧ a.type = s2.type ∧
        a.is_only_part_defined = (if r1 then s2.is_only_part_defined else true)) := by
  refine ⟨?_, ?_, ?_⟩
  · intro branch1 branch2 r1 r2 name s1 s2 hr1 hr2 h1 h2 hne
    subst hr1; subst hr2
    unfold AstToIr3.join_definitions_in_branches
    apply map_except_error_of_mem _ _ name (mem_join_symbol_names_left branch1 branch2 false name s1 h1)
    refine ⟨.conflictingTypesInBranches name s2.type s1.type, ?_⟩
    simp only [AstToIr3.join_one, Bool.false_eq_true, ite_false, h1, h2, if_pos hne]
  · intro branch1 branch2 r1 r2 name s1 adds hok hr1 h1 hd
    subst hr1
    unfold AstToIr3.join_definitions_in_branches at hok
    rcases map_except_ok_mem _ _ adds hok name
        (mem_join_symbol_names_left branch1 branch2 r2 name s1 h1) with ⟨b, hb, hone⟩
    have hb2 : (if r2 then none else branch2.lookup name) = (none : Option AstToIr3.SymbolEntry) := by
      rcases hd with hr2 | hnone
      · simp [hr2]
      · simp [hnone]
    have hone2 : AstToIr3.join_one branch1 false branch2 r2 name
        = .ok ⟨name, s1.type, if r2 then s1.is_only_part_defined else true,
               s1.type.is_function_type⟩ := by
      simp only [AstToIr3.join_one, Bool.false_eq_true, ite_false, h1, hb2]
    rw [hone2] at hone
    injection hone with hone3
    subst hone3
    exact ⟨_, hb, rfl, rfl, rfl⟩
  · intro branch1 branch2 r1 r2 name s2 adds hok hr2 h2 hd
    subst hr2
    unfold AstToIr3.join_definitions_in_branches at hok
    rcases map_except_ok_mem _ _ adds hok name
        (mem_join_symbol_names_right branch1 branch2 r1 name s2 h2) with ⟨b, hb, hone⟩
    have hb1 : (if r1 then none else branch1.lookup name) = (none : Option AstToIr3.SymbolEntry) := by
      rcases hd with hr1 | hnone
      · simp [hr1]
      · simp [hnone]
    have hone2 : AstToIr3.join_one branch1 r1 branch2 false name
        = .ok ⟨name, s2.type, if r1 then s2.is_only_part_defined else true,
               s2.type.is_function_type⟩ := by
      simp only [AstToIr3.join_one, Bool.false_eq_true, ite_false, h2, hb1]
    rw [hone2] at hone
    injection hone with hone3
    subst hone3
    exact ⟨_, hb, rfl, rfl, rfl⟩

/-- C3 amended witness: with `x : Int` partially defined in branch 1 and
an always-returning branch 2, `x` is added keeping its partial flag. -/
theorem join_definitions_characterization_witness :
    ∃ a ∈ ([⟨"x", .intType, true, false⟩] : List AstToIr3.Addition),
      a.name = "x" ∧ a.type = Ir3.ExprType.intType ∧ a.is_only_part_defined = true :=
  join_definitions_in_branches_characterization.2.1
    [("x", ⟨.intType, true⟩)] [("y", ⟨.intType, false⟩)] false true "x" ⟨.intType, true⟩
    [⟨"x", .intType, true, false⟩] rfl rfl rfl (Or.inl rfl)

/-- The short-circuiting fold over a custom type's fields returns
`some true` exactly when every field type is structural-equality-supported. -/
theorem all_fields_structural_iff (fields : List (String × Ir3.ExprType)) :
    AstToIr3.all_fields_structural_equality_supported fields = some true
      ↔ fields.all (fun f => AstToIr3.structural_equality_supported_b f.2) = true := by
  induction fields with
  | nil => simp [AstToIr3.all_fields_structural_equality_supported]
  | cons f rest ih =>
      match f with
      | (n, t) =>
          cases hb : AstToIr3.is_structural_equality_check_supported_for_type t with
          | none =>
              simp [AstToIr3.all_fields_structural_equality_supported, hb,
                AstToIr3.structural_equality_supported_b]
          | some b =>
              cases b
              · simp [AstToIr3.all_fields_structural_equality_supported, hb,
                  AstToIr3.structural_equality_supported_b]
              · simp [AstToIr3.all_fields_structural_equality_supported, hb,
                  AstToIr3.structural_equality_supported_b, ih]

/-- The source's equality-support predicate agrees with the amended C6
predicate. -/
theorem eq_supported_iff_amended (t : Ir3.ExprType) :
    AstToIr3.is_equality_check_supported_for_type t = some true
      ↔ AstToIr3.amended_equality_supported t = true := by
  cases t with
  | boolType => simp [AstToIr3.is_equality_check_supported_for_type,
      AstToIr3.is_structural_equality_check_supported_for_type,
      AstToIr3.amended_equality_supported]
  | intType => simp [AstToIr3.is_equality_check_supported_for_type,
      AstToIr3.is_structural_equality_check_supported_for_type,
      AstToIr3.amended_equality_supported]
  | typeType => simp [AstToIr3.is_equality_check_supported_for_type,
      AstToIr3.is_structural_equality_check_supported_for_type,
      AstToIr3.amended_equality_supported]
  | bottomType => simp [AstToIr3.is_equality_check_supported_for_type,
      AstToIr3.is_structural_equality_check_supported_for_type,
      AstToIr3.amended_equality_supported]
  | listType elem_type => simp [AstToIr3.is_equality_check_supported_for_type,
      AstToIr3.is_structural_equality_check_supported_for_type,
      AstToIr3.amended_equality_supported, AstToIr3.structural_equality_supported_b]
  | setType elem_type => simp [AstToIr3.is_equality_check_supported_for_type,
      AstToIr3.amended_equality_supported, AstToIr3.structural_equality_supported_b]
  | functionType argtypes returns => simp [AstToIr3.is_equality_check_supported_for_type,
      AstToIr3.is_structural_equality_check_supported_for_type,
      AstToIr3.amended_equality_supported]
  | customType name arg_types is_exc =>
      simp [AstToIr3.is_equality_check_supported_for_type,
        AstToIr3.is_structural_equality_check_supported_for_type,
        AstToIr3.amended_equality_supported, all_fields_structural_iff]

/-- C6 counterexample: claim C6 as stated is false.  `List[Set[bool]]` is
"a `List` of a supported element type" (a `Set` of the structural-equality-
supported `bool` is itself supported), so the claim deems it supported;
the code rejects it, because the structural check inside the `List` case
rejects every `Set`. -/
theorem eq_claim_counterexample : ¬ AstToIr3.eq_claim_as_stated := by
  intro h
  have h2 := h (.varReference (.listType (.setType .boolType)) "x" false false)
      (.varReference (.listType (.setType .boolType)) "y" false false) rfl
  have h3 := h2.mpr (by decide)
  rcases h3 with ⟨out, hout⟩
  rw [show AstToIr3.eq_ast_to_ir3
        (.varReference (.listType (.setType .boolType)) "x" false false)
        (.varReference (.listType (.setType .boolType)) "y" false false)
      = .error (.compilationError (.eqTypeNotSupported (.listType (.setType .boolType))))
    from rfl] at hout
  exact Except.noConfusion hout

/-- C6 amended: an equality (or inequality) comparison between two
expressions of the same type elaborates successfully exactly when the type
is supported for equality, where: `Bool`, `Int` and `TypeRef` are
supported; a `List` is supported exactly when its element type is
structural-equality-supported (so lists of sets are not); a `Set` exactly
when its element type is structural-equality-supported (so sets of sets
are not); a `Custom` type exactly when every field type is
structural-equality-supported; and function types are never supported. -/
theorem eq_elaboration_supported_iff (lhs rhs : Ir3.Expr) (h : lhs.type = rhs.type) :
    (∃ out, AstToIr3.eq_ast_to_ir3 lhs rhs = .ok out)
      ↔ AstToIr3.amended_equality_supported lhs.type = true := by
  cases hsup : AstToIr3.is_equality_check_supported_for_type lhs.type with
  | none =>
      have heq : AstToIr3.eq_ast_to_ir3 lhs rhs = .error .notImplementedError := by
        unfold AstToIr3.eq_ast_to_ir3
        rw [if_neg (by simp [h]), hsup]
      constructor
      · rintro ⟨out, hout⟩
        rw [heq] at hout
        exact Except.noConfusion hout
      · intro ham
        have := (eq_supported_iff_amended lhs.type).mpr ham
        rw [hsup] at this
        exact Option.noConfusion this
  | some b =>
      cases b
      · have heq : AstToIr3.eq_ast_to_ir3 lhs rhs
            = .error (.compilationError (.eqTypeNotSupported lhs.type)) := by
          unfold AstToIr3.eq_ast_to_ir3
          rw [if_neg (by simp [h]), hsup]
        constructor
        · rintro ⟨out, hout⟩
          rw [heq] at hout
          exact Except.noConfusion hout
        · intro ham
          have := (eq_supported_iff_amended lhs.type).mpr ham
          rw [hsup] at this
          injection this with hb
          exact Bool.noConfusion hb
      · have heq : AstToIr3.eq_ast_to_ir3 lhs rhs = .ok (.equalityComparison lhs rhs) := by
          unfold AstToIr3.eq_ast_to_ir3
          rw [if_neg (by simp [h]), hsup]
        exact ⟨fun _ => (eq_supported_iff_amended lhs.type).mp hsup, fun _ => ⟨_, heq⟩⟩

/-- C6 amended witness: `Int == Int` elaborates successfully. -/
theorem eq_elaboration_supported_iff_witness :
    ∃ out, AstToIr3.eq_ast_to_ir3 (.varReference .intType "x" false false)
        (.varReference .intType "y" false false) = .ok out :=
  (eq_elaboration_supported_iff (.varReference .intType "x" false false)
    (.varReference .intType "y" false false) rfl).mpr rfl

/-- The collapsing loop of `_simplify_toplevel_references` consumes a whole
reference chain, accumulating whether any link was an lvalue reference. -/
theorem simplify_loop_build_ref_chain (links : List Bool) (inner : Ir0.Expr) :
    ∀ h : Bool,
      Ir0ToCpp.simplify_toplevel_references_loop h (Ir0ToCpp.build_ref_chain links inner)
        = Ir0ToCpp.simplify_toplevel_references_loop (h || links.any (fun l => l)) inner := by
  induction links with
  | nil => intro h; simp [Ir0ToCpp.build_ref_chain]
  | cons b rest ih =>
      intro h
      cases b
      · simp only [Ir0ToCpp.build_ref_chain, Bool.false_eq_true, ite_false,
          Ir0ToCpp.simplify_toplevel_references_loop, ih, List.any_cons, Bool.false_or]
      · simp only [Ir0ToCpp.build_ref_chain, ite_true,
          Ir0ToCpp.simplify_toplevel_references_loop, ih, List.any_cons, Bool.true_or,
          Bool.or_true, Bool.true_or]

/-- Two expressions that both have a reference or rvalue-reference head
and the same collapsed form are emitted identically. -/
theorem pre_suf_eq_of_simplify_eq (fuel : Nat) (a b : Ir0.Expr)
    (enclosing_function_defn_args : List Ir0.TemplateArgDecl) (hm : Bool)
    (st : Ir0ToCpp.EmitState)
    (ha : ∃ x, a = .referenceTypeExpr x ∨ a = .rvalueReferenceTypeExpr x)
    (hb : ∃ x, b = .referenceTypeExpr x ∨ b = .rvalueReferenceTypeExpr x)
    (hsim : Ir0ToCpp.simplify_toplevel_references a
      = Ir0ToCpp.simplify_toplevel_references b) :
    Ir0ToCpp.type_expr_to_cpp_pre_suf fuel a enclosing_function_defn_args hm st
      = Ir0ToCpp.type_expr_to_cpp_pre_suf fuel b enclosing_function_defn_args hm st := by
  match fuel with
  | 0 => rfl
  | fuel + 1 =>
      rcases ha with ⟨x, hx | hx⟩ <;> rcases hb with ⟨y, hy | hy⟩ <;>
        · subst hx; subst hy
          simp only [Ir0ToCpp.type_expr_to_cpp_pre_suf]
          rw [hsim]

/-- C7: the emitter collapses a whole chain of reference / rvalue-reference
type constructors before emitting: the emission of the chain equals the
emission of a single `ReferenceTypeExpr` around the inner expression when
at least one link is an lvalue reference, and of a single
`RvalueReferenceTypeExpr` otherwise (so `ref(ref(rref(T)))` emits with a
single ` &` and `rref(rref(T))` with ` &&`). -/
theorem reference_chain_collapse (links : List Bool) (inner : Ir0.Expr) (fuel : Nat)
    (enclosing_function_defn_args : List Ir0.TemplateArgDecl) (st : Ir0ToCpp.EmitState)
    (hne : links ≠ []) :
    Ir0ToCpp.type_expr_to_cpp fuel (Ir0ToCpp.build_ref_chain links inner)
        enclosing_function_defn_args st
      = Ir0ToCpp.type_expr_to_cpp fuel
          (if links.any (fun l => l) then Ir0.Expr.referenceTypeExpr inner
           else Ir0.Expr.rvalueReferenceTypeExpr inner)
          enclosing_function_defn_args st := by
  have hsimp : Ir0ToCpp.simplify_toplevel_references (Ir0ToCpp.build_ref_chain links inner)
      = Ir0ToCpp.simplify_toplevel_references
          (if links.any (fun l => l) then Ir0.Expr.referenceTypeExpr inner
           else Ir0.Expr.rvalueReferenceTypeExpr inner) := by
    unfold Ir0ToCpp.simplify_toplevel_references
    rw [simplify_loop_build_ref_chain links inner false]
    cases hany : links.any (fun l => l) with
    | false =>
        simp only [ite_false, Bool.false_or,
          Ir0ToCpp.simplify_toplevel_references_loop]
    | true =>
        simp only [ite_true, Bool.false_or,
          Ir0ToCpp.simplify_toplevel_references_loop]
  have hchainshape : ∃ x, Ir0ToCpp.build_ref_chain links inner = .referenceTypeExpr x
      ∨ Ir0ToCpp.build_ref_chain links inner = .rvalueReferenceTypeExpr x := by
    match links, hne with
    | b :: rest, _ =>
        cases b
        · exact ⟨Ir0ToCpp.build_ref_chain rest inner, Or.inr (by simp [Ir0ToCpp.build_ref_chain])⟩
        · exact ⟨Ir0ToCpp.build_ref_chain rest inner, Or.inl (by simp [Ir0ToCpp.build_ref_chain])⟩
  have hcollshape : ∃ x, (if links.any (fun l => l) then Ir0.Expr.referenceTypeExpr inner
        else Ir0.Expr.rvalueReferenceTypeExpr inner) = .referenceTypeExpr x
      ∨ (if links.any (fun l => l) then Ir0.Expr.referenceTypeExpr inner
        else Ir0.Expr.rvalueReferenceTypeExpr inner) = .rvalueReferenceTypeExpr x := by
    cases hany : links.any (fun l => l)
    · exact ⟨inner, Or.inr (by simp)⟩
    · exact ⟨inner, Or.inl (by simp)⟩
  match fuel with
  | 0 => rfl
  | fuel + 1 =>
      have hpre := pre_suf_eq_of_simplify_eq fuel _ _ enclosing_function_defn_args false st
        hchainshape hcollshape hsimp
      simp only [Ir0ToCpp.type_expr_to_cpp]
      rw [hpre]

/-- C7 witness: `ref(ref(rref(T)))` is emitted exactly like `ref(T)`, and
the emitted text is `T &`. -/
theorem reference_chain_collapse_witness :
    Ir0ToCpp.type_expr_to_cpp 10
        (Ir0ToCpp.build_ref_chain [true, true, false]
          (.atomicTypeLiteral "T" false false .typeType)) [] Ir0ToCpp.sample_emit_state
      = Ir0ToCpp.type_expr_to_cpp 10
          (if [true, true, false].any (fun l => l) then
            Ir0.Expr.referenceTypeExpr (.atomicTypeLiteral "T" false false .typeType)
          else Ir0.Expr.rvalueReferenceTypeExpr (.atomicTypeLiteral "T" false false .typeType))
          [] Ir0ToCpp.sample_emit_state
    ∧ (Ir0ToCpp.type_expr_to_cpp 10
        (Ir0ToCpp.build_ref_chain [true, true, false]
          (.atomicTypeLiteral "T" false false .typeType)) [] Ir0ToCpp.sample_emit_state).map
        Prod.fst = some "T &"
    ∧ (Ir0ToCpp.type_expr_to_cpp 10
        (Ir0ToCpp.build_ref_chain [false, false]
          (.atomicTypeLiteral "T" false false .typeType)) [] Ir0ToCpp.sample_emit_state).map
        Prod.fst = some "T &&" :=
  ⟨reference_chain_collapse [true, true, false] _ 10 [] _ (List.cons_ne_nil _ _), rfl, rfl⟩

/-- The guard loop of `static_assert_to_cpp` succeeds exactly on the first
enclosing parameter of scalar kind, emitting the `AlwaysTrueFrom*` guard
matching that parameter's kind. -/
theorem static_assert_param_loop_characterization (cpp_meta_expr message : String) :
    ∀ l : List Ir0.TemplateArgDecl,
      (Ir0ToCpp.static_assert_param_loop cpp_meta_expr message l = none
        ↔ Ir0ToCpp.first_scalar_param l = none)
      ∧ ∀ elem, Ir0ToCpp.static_assert_param_loop cpp_meta_expr message l = some elem →
          ∃ p, Ir0ToCpp.first_scalar_param l = some p ∧
            ((p.type.kind = .bool ∧ elem = "static_assert(AlwaysTrueFromBool<" ++ p.name
                ++ ">::value && " ++ cpp_meta_expr ++ ", \"" ++ message ++ "\");")
             ∨ (p.type.kind = .int64 ∧ elem = "static_assert(AlwaysTrueFromInt64<" ++ p.name
                ++ ">::value && " ++ cpp_meta_expr ++ ", \"" ++ message ++ "\");")
             ∨ (p.type.kind = .type ∧ elem = "static_assert(AlwaysTrueFromType<" ++ p.name
                ++ ">::value && " ++ cpp_meta_expr ++ ", \"" ++ message ++ "\");")) := by
  intro l
  induction l with
  | nil =>
      exact ⟨by simp [Ir0ToCpp.static_assert_param_loop, Ir0ToCpp.first_scalar_param],
        fun elem helem => absurd helem (by simp [Ir0ToCpp.static_assert_param_loop])⟩
  | cons arg_decl rest ih =>
      cases hk : arg_decl.type.kind with
      | bool =>
          refine ⟨?_, fun elem helem => ?_⟩
          · simp [Ir0ToCpp.static_assert_param_loop, Ir0ToCpp.first_scalar_param, hk]
          · refine ⟨arg_decl, by simp [Ir0ToCpp.first_scalar_param, hk], Or.inl ⟨hk, ?_⟩⟩
            simp only [Ir0ToCpp.static_assert_param_loop, hk] at helem
            injection helem with helem
            exact helem.symm
      | int64 =>
          refine ⟨?_, fun elem helem => ?_⟩
          · simp [Ir0ToCpp.static_assert_param_loop, Ir0ToCpp.first_scalar_param, hk]
          · refine ⟨arg_decl, by simp [Ir0ToCpp.first_scalar_param, hk], Or.inr (Or.inl ⟨hk, ?_⟩)⟩
            simp only [Ir0ToCpp.static_assert_param_loop, hk] at helem
            injection helem with helem
            exact helem.symm
      | type =>
          refine ⟨?_, fun elem helem => ?_⟩
          · simp [Ir0ToCpp.static_assert_param_loop, Ir0ToCpp.first_scalar_param, hk]
          · refine ⟨arg_decl, by simp [Ir0ToCpp.first_scalar_param, hk], Or.inr (Or.inr ⟨hk, ?_⟩)⟩
            simp only [Ir0ToCpp.static_assert_param_loop, hk] at helem
            injection helem with helem
            exact helem.symm
      | template =>
          refine ⟨?_, fun elem helem => ?_⟩
          · simpa [Ir0ToCpp.static_assert_param_loop, Ir0ToCpp.first_scalar_param, hk] using ih.1
          · rcases ih.2 elem (by simpa [Ir0ToCpp.static_assert_param_loop, hk] using helem)
              with ⟨p, hp, hdis⟩
            exact ⟨p, by simp [Ir0ToCpp.first_scalar_param, hk, hp], hdis⟩
      | variadicType =>
          refine ⟨?_, fun elem helem => ?_⟩
          · simpa [Ir0ToCpp.static_assert_param_loop, Ir0ToCpp.first_scalar_param, hk] using ih.1
          · rcases ih.2 elem (by simpa [Ir0ToCpp.static_assert_param_loop, hk] using helem)
              with ⟨p, hp, hdis⟩
            exact ⟨p, by simp [Ir0ToCpp.first_scalar_param, hk, hp], hdis⟩

/-- C1: every `static_assert` emitted by `static_assert_to_cpp` inside a
non-empty enclosing template argument list is the last element written,
and is either emitted as-is because the assert expression references an
enclosing template parameter, or guarded by
`AlwaysTrueFrom{Bool,Int64,Type}<p>::value &&` for the first enclosing
parameter `p` of kind `BOOL`, `INT64` or `TYPE` respectively, or — when no
enclosing parameter has one of those kinds — guarded by a freshly defined
always-true template instantiated on the first enclosing parameter. -/
theorem static_assert_deferred_evaluation_guard
    (fuel : Nat) (assert_stmt : Ir0.StaticAssert)
    (enclosing_function_defn_args : List Ir0.TemplateArgDecl)
    (st st' : Ir0ToCpp.EmitState)
    (hne : enclosing_function_defn_args ≠ [])
    (h : Ir0ToCpp.static_assert_to_cpp fuel assert_stmt enclosing_function_defn_args st
      = some st') :
    ∃ cpp_meta_expr elems_before elem, st'.body_elems = elems_before ++ [elem] ∧
      ((assert_stmt.expr.references_any_of
          (enclosing_function_defn_args.map (fun arg_decl => arg_decl.name)) = true ∧
          elem = "static_assert(" ++ cpp_meta_expr ++ ", \"" ++ assert_stmt.message ++ "\");")
       ∨ (∃ p, Ir0ToCpp.first_scalar_param enclosing_function_defn_args = some p ∧
            ((p.type.kind = .bool ∧ elem = "static_assert(AlwaysTrueFromBool<" ++ p.name
                ++ ">::value && " ++ cpp_meta_expr ++ ", \"" ++ assert_stmt.message ++ "\");")
             ∨ (p.type.kind = .int64 ∧ elem = "static_assert(AlwaysTrueFromInt64<" ++ p.name
                ++ ">::value && " ++ cpp_meta_expr ++ ", \"" ++ assert_stmt.message ++ "\");")
             ∨ (p.type.kind = .type ∧ elem = "static_assert(AlwaysTrueFromType<" ++ p.name
                ++ ">::value && " ++ cpp_meta_expr ++ ", \"" ++ assert_stmt.message ++ "\");")))
       ∨ (Ir0ToCpp.first_scalar_param enclosing_function_defn_args = none ∧
          ∃ always_true_id first_arg,
            enclosing_function_defn_args.head? = some first_arg ∧
            elem = Ir0ToCpp.custom_always_true_elem
              (Ir0ToCpp.type_to_template_param_declaration first_arg.type)
              always_true_id first_arg.name cpp_meta_expr assert_stmt.message)) := by
  match fuel with
  | 0 => exact Option.noConfusion h
  | fuel + 1 =>
      match enclosing_function_defn_args, hne with
      | first_arg :: rest_args, _ =>
          simp only [Ir0ToCpp.static_assert_to_cpp] at h
          cases hexp : Ir0ToCpp.expr_to_cpp fuel assert_stmt.expr (first_arg :: rest_args) st with
          | none => rw [hexp] at h; exact Option.noConfusion h
          | some out =>
              match out with
              | (cpp_meta_expr, st1) =>
                  rw [hexp] at h
                  have h2 : (if ((first_arg :: rest_args).isEmpty
                        || assert_stmt.expr.references_any_of
                          ((first_arg :: rest_args).map (fun arg_decl => arg_decl.name)))
                        = true then
                      some (st1.write_template_body_elem
                        ("static_assert(" ++ cpp_meta_expr ++ ", \"" ++ assert_stmt.message
                          ++ "\");"))
                    else
                      match Ir0ToCpp.static_assert_param_loop cpp_meta_expr assert_stmt.message
                          (first_arg :: rest_args) with
                      | some elem => some (st1.write_template_body_elem elem)
                      | none =>
                          some ((st1.new_id.2).write_template_body_elem
                            (Ir0ToCpp.custom_always_true_elem
                              (Ir0ToCpp.type_to_template_param_declaration first_arg.type)
                              st1.new_id.1 first_arg.name cpp_meta_expr
                              assert_stmt.message))) = some st' := h
                  cases href : assert_stmt.expr.references_any_of
                      ((first_arg :: rest_args).map (fun arg_decl => arg_decl.name)) with
                  | true =>
                      rw [href] at h2
                      have h3 : some (st1.write_template_body_elem
                          ("static_assert(" ++ cpp_meta_expr ++ ", \"" ++ assert_stmt.message
                            ++ "\");")) = some st' := h2
                      injection h3 with h3
                      refine ⟨cpp_meta_expr, st1.body_elems, _, ?_, Or.inl ⟨rfl, rfl⟩⟩
                      rw [← h3]
                      rfl
                  | false =>
                      rw [href] at h2
                      have h3 : (match Ir0ToCpp.static_assert_param_loop cpp_meta_expr
                          assert_stmt.message (first_arg :: rest_args) with
                        | some elem => some (st1.write_template_body_elem elem)
                        | none =>
                            some ((st1.new_id.2).write_template_body_elem
                              (Ir0ToCpp.custom_always_true_elem
                                (Ir0ToCpp.type_to_template_param_declaration first_arg.type)
                                st1.new_id.1 first_arg.name cpp_meta_expr
                                assert_stmt.message))) = some st' := h2
                      cases hloop : Ir0ToCpp.static_assert_param_loop cpp_meta_expr
                          assert_stmt.message (first_arg :: rest_args) with
                      | some elem =>
                          rw [hloop] at h3
                          injection h3 with h3
                          rcases (static_assert_param_loop_characterization cpp_meta_expr
                              assert_stmt.message (first_arg :: rest_args)).2 elem hloop
                            with ⟨p, hp, hdis⟩
                          refine ⟨cpp_meta_expr, st1.body_elems, elem, ?_,
                            Or.inr (Or.inl ⟨p, hp, hdis⟩)⟩
                          rw [← h3]
                          rfl
                      | none =>
                          rw [hloop] at h3
                          injection h3 with h3
                          refine ⟨cpp_meta_expr, st1.body_elems, _, ?_,
                            Or.inr (Or.inr ⟨(static_assert_param_loop_characterization
                                cpp_meta_expr assert_stmt.message
                                (first_arg :: rest_args)).1.mp hloop,
                              st1.new_id.1, first_arg, rfl, rfl⟩)⟩
                          rw [← h3]
                          rfl

/-- C1 witness: emitting `static_assert(true, "m")` inside a template with
the single parameter `int64_t n` produces the guarded
`AlwaysTrueFromInt64<n>` form. -/
theorem static_assert_deferred_evaluation_guard_witness :
    ∃ cpp_meta_expr elems_before elem,
      Ir0ToCpp.sample_assert_out_state.body_elems = elems_before ++ [elem] ∧
      (((Ir0.StaticAssert.mk (.literal (.bool true)) "m").expr.references_any_of
          (([⟨.int64Type, "n"⟩] : List Ir0.TemplateArgDecl).map
            (fun arg_decl => arg_decl.name)) = true ∧
          elem = "static_assert(" ++ cpp_meta_expr ++ ", \""
            ++ (Ir0.StaticAssert.mk (.literal (.bool true)) "m").message ++ "\");")
       ∨ (∃ p, Ir0ToCpp.first_scalar_param [⟨.int64Type, "n"⟩] = some p ∧
            ((p.type.kind = .bool ∧ elem = "static_assert(AlwaysTrueFromBool<" ++ p.name
                ++ ">::value && " ++ cpp_meta_expr ++ ", \""
                ++ (Ir0.StaticAssert.mk (.literal (.bool true)) "m").message ++ "\");")
             ∨ (p.type.kind = .int64 ∧ elem = "static_assert(AlwaysTrueFromInt64<" ++ p.name
                ++ ">::value && " ++ cpp_meta_expr ++ ", \""
                ++ (Ir0.StaticAssert.mk (.literal (.bool true)) "m").message ++ "\");")
             ∨ (p.type.kind = .type ∧ elem = "static_assert(AlwaysTrueFromType<" ++ p.name
                ++ ">::value && " ++ cpp_meta_expr ++ ", \""
                ++ (Ir0.StaticAssert.mk (.literal (.bool true)) "m").message ++ "\");")))
       ∨ (Ir0ToCpp.first_scalar_param [⟨.int64Type, "n"⟩] = none ∧
          ∃ always_true_id first_arg,
            ([⟨.int64Type, "n"⟩] : List Ir0.TemplateArgDecl).head? = some first_arg ∧
            elem = Ir0ToCpp.custom_always_true_elem
              (Ir0ToCpp.type_to_template_param_declaration first_arg.type)
              always_true_id first_arg.name cpp_meta_expr
              (Ir0.StaticAssert.mk (.literal (.bool true)) "m").message)) :=
  static_assert_deferred_evaluation_guard 10 ⟨.literal (.bool true), "m"⟩
    [⟨.int64Type, "n"⟩] Ir0ToCpp.sample_emit_state Ir0ToCpp.sample_assert_out_state
    (List.cons_ne_nil _ _) rfl
